import Mathlib

/-!
# CLKernel core — shallow embedding and verification

This development embeds the core of the CLKernel repository
(`src/kernel/core/scheduler.c`, `src/kernel/core/modules.c`,
`src/kernel/core/sandboxing.c` and the corresponding headers) as executable
Lean definitions, and proves or refutes the specification claims about the
scheduler/messaging subsystem, the module registry and the sandbox engine.

Modelling conventions (used consistently below):
* C `uint32_t`/`uint64_t` counters are modelled as `Nat`; none of the verified
  properties depends on wrap-around, and where the C code can only increment a
  counter the `Nat` model is exact.
* The dense id-indexed actor table (`kernel_scheduler.actors[MAX_ACTORS]`) and
  the module pool are modelled as lists of records keyed by their id field;
  `actor_get`/`module_get` become a lookup of the first record with the id.
* Intrusive doubly-linked lists (the ready queue, a module list, a message
  queue) are modelled as Lean lists holding the same elements in the same
  order (head of the Lean list = head of the C list).
* `kmalloc` for payload/image bytes is modelled as always succeeding (the
  byte copy becomes a by-value copy); the bounded *message pool*
  (`message_pool_used[MAX_MESSAGES]`) and the module slot pool are modelled
  exactly, so allocation failure of pooled objects is faithful.
* C strings are `List Char`; the NUL terminator is the end of the list.
-/

namespace CLKernel

/-! ## Constants from `scheduler.h` -/

def MAX_ACTORS : Nat := 256
def MAX_MESSAGES : Nat := 1024
def SCHEDULER_TIMESLICE_MS : Nat := 10

def ACTOR_STATE_CREATED : Nat := 0
def ACTOR_STATE_READY : Nat := 1
def ACTOR_STATE_RUNNING : Nat := 2
def ACTOR_STATE_BLOCKED : Nat := 3
def ACTOR_STATE_FINISHED : Nat := 4
def ACTOR_STATE_ERROR : Nat := 5
def ACTOR_STATE_SUSPENDED : Nat := 6

def ACTOR_PRIORITY_CRITICAL : Nat := 0
def ACTOR_PRIORITY_HIGH : Nat := 1
def ACTOR_PRIORITY_NORMAL : Nat := 2
def ACTOR_PRIORITY_LOW : Nat := 3
def ACTOR_PRIORITY_IDLE : Nat := 4

def MSG_TYPE_ASYNC : Nat := 0
def MSG_TYPE_SYNC_REQUEST : Nat := 1
def MSG_TYPE_SYNC_REPLY : Nat := 2
def MSG_TYPE_BROADCAST : Nat := 3
def MSG_TYPE_SYSTEM : Nat := 4

/-! ## Messages (`message_t`, scheduler.h)

The `next` pointer of `message_t` is the intrusive queue link; it is
represented by the position of the message in the queue list. -/

structure Message where
  sender_id : Nat
  recipient_id : Nat
  message_id : Nat
  type : Nat
  priority : Nat
  flags : Nat
  payload : List Nat
  payload_size : Nat
  timestamp : Nat
  deadline : Nat
  reply_to : Nat
  requires_reply : Bool
deriving DecidableEq, Repr

/-! ## Actors (`actor_t`, scheduler.h)

Machine-level fields (saved register image, `eip`/`esp`/`ebp`/`eflags`,
raw stack pointers, `memory_context`, `error_message`) are outside the
shallow embedding; every field read or written by the embedded operations
is present.  `queue_size` is kept as a separate counter exactly as in the C
struct, next to the queue list itself. -/

structure Actor where
  actor_id : Nat
  parent_id : Nat
  state : Nat
  priority : Nat
  flags : Nat
  stack_size : Nat
  message_queue : List Message
  queue_size : Nat
  max_queue_size : Nat
  cpu_time_used : Nat
  messages_sent : Nat
  messages_received : Nat
  creation_time : Nat
  last_scheduled : Nat
  memory_limit : Nat
  memory_used : Nat
  error_code : Nat
  behavior_score : Nat
  anomaly_count : Nat
  ai_monitored : Bool
deriving DecidableEq, Repr

/-! ## Per-mailbox operations (scheduler.c) -/

/-- `actor_add_message` (scheduler.c:708-735): rejects when
`queue_size >= max_queue_size`, otherwise appends the message at the tail of
the queue and increments `queue_size`.  The C `!actor || !message` null check
is outside the value-level model.  `none` models the `false` return. -/
def actor_add_message (actor : Actor) (message : Message) : Option Actor :=
  if actor.queue_size ≥ actor.max_queue_size then
    none
  else
    some { actor with
            message_queue := actor.message_queue ++ [message]
            queue_size := actor.queue_size + 1 }

/-- The per-actor core of `message_receive` (scheduler.c:455-476): detach the
head of the queue, decrement `queue_size`, increment `messages_received`.
(The global `messages_delivered` statistic lives in the scheduler-level
wrapper `message_receive` below.) -/
def actor_receive (actor : Actor) : Option Message × Actor :=
  match actor.message_queue with
  | [] => (none, actor)
  | m :: rest =>
      (some m, { actor with
                  message_queue := rest
                  queue_size := actor.queue_size - 1
                  messages_received := actor.messages_received + 1 })

/-- `actor_clear_message_queue` (scheduler.c:740-755): frees every queued
message and resets the queue and its counter. -/
def actor_clear_message_queue (actor : Actor) : Actor :=
  { actor with message_queue := [], queue_size := 0 }

/-- The mailbox of a freshly created actor (`actor_create`,
scheduler.c:252-254, and `actor_create_kernel_actor`, scheduler.c:655-657):
empty queue, zero counter. -/
def MailboxInit (a : Actor) : Prop :=
  a.message_queue = [] ∧ a.queue_size = 0

/-- One mutation of an actor's mailbox as performed anywhere in scheduler.c:
a successful `actor_add_message` (the only enqueue), the dequeue inside
`message_receive`, or `actor_clear_message_queue` (actor termination). -/
inductive MailboxStep : Actor → Actor → Prop
  | add (a a' : Actor) (m : Message) :
      actor_add_message a m = some a' → MailboxStep a a'
  | recv (a : Actor) : MailboxStep a (actor_receive a).2
  | clear (a : Actor) : MailboxStep a (actor_clear_message_queue a)

/-- All states a mailbox can reach from its creation state. -/
def MailboxReachable (a a' : Actor) : Prop :=
  Relation.ReflTransGen MailboxStep a a'

/-- The mailbox representation invariant: the `queue_size` counter equals the
queue length, the length is bounded by the capacity, and the capacity is
never mutated. -/
def MailboxInv (cap : Nat) (a : Actor) : Prop :=
  a.queue_size = a.message_queue.length ∧
  a.message_queue.length ≤ a.max_queue_size ∧
  a.max_queue_size = cap

/-! ## Scheduler state (`scheduler_t`, scheduler.h / scheduler.c) -/

structure SchedStats where
  context_switches : Nat
  actors_created : Nat
  actors_destroyed : Nat
  messages_sent : Nat
  messages_delivered : Nat
  cpu_time_total : Nat
  current_actors : Nat
  ready_actors : Nat
  blocked_actors : Nat
  average_queue_depth : Nat
  scheduler_overhead : Nat
  deadlocks_detected : Nat
  load_balance_actions : Nat
deriving DecidableEq, Repr

/-- `scheduler_t` plus the global flag `scheduler_initialized`.  The actor
table `actors[MAX_ACTORS]` is modelled as the list of its non-NULL entries
(each carrying its own `actor_id` index); the intrusive ready queue is the
list of the ids of the linked actors, head first.  The message pool's
`message_pool_used[MAX_MESSAGES]` occupancy array is kept verbatim; the
content of a free pool slot is irrelevant, so messages live as values in the
queues that own them. -/
structure SchedState where
  scheduler_initialized : Bool
  scheduler_enabled : Bool
  actors : List Actor
  ready_queue : List Nat
  current_actor : Option Nat
  tick_count : Nat
  current_timeslice : Nat
  message_pool_used : List Bool
  statistics : SchedStats
deriving DecidableEq, Repr

/-- `actor_get` (scheduler.c:352-359): bounds check, then the table entry. -/
def actor_get (s : SchedState) (actor_id : Nat) : Option Actor :=
  if actor_id ≥ MAX_ACTORS then none
  else s.actors.find? (fun a => a.actor_id == actor_id)

/-- Mutation through a pointer into the actor table: rewrite the first (in a
well-formed table: the only) record carrying the id. -/
def updateActorList : List Actor → Nat → (Actor → Actor) → List Actor
  | [], _, _ => []
  | a :: rest, actor_id, f =>
      if a.actor_id = actor_id then f a :: rest
      else a :: updateActorList rest actor_id f

def updateActor (s : SchedState) (actor_id : Nat) (f : Actor → Actor) : SchedState :=
  { s with actors := updateActorList s.actors actor_id f }

/-- `scheduler_add_to_ready_queue` (scheduler.c:584-602): guard
`state != ACTOR_STATE_READY`, then insertion at the HEAD of the queue
("Simple insertion at head for now"), and `ready_actors++`. -/
def scheduler_add_to_ready_queue (s : SchedState) (actor : Actor) : SchedState :=
  if actor.state ≠ ACTOR_STATE_READY then s
  else
    { s with
        ready_queue := actor.actor_id :: s.ready_queue
        statistics := { s.statistics with ready_actors := s.statistics.ready_actors + 1 } }

/-- `scheduler_remove_from_ready_queue` (scheduler.c:607-628).  The C code
unlinks through the actor's `prev`/`next` pointers: a node currently linked
into the queue is spliced out; a node that is NOT linked has
`prev = next = NULL` (both insertion and removal maintain this), so the
branch `kernel_scheduler.ready_queue = actor->next` sets the head to NULL and
the queue becomes empty.  `ready_actors` is decremented unconditionally (a
`uint32_t` in C; the saturating `Nat` subtraction stands in for it — no
verified property reads this statistic). -/
def scheduler_remove_from_ready_queue (s : SchedState) (actor_id : Nat) : SchedState :=
  let q := if actor_id ∈ s.ready_queue then s.ready_queue.erase actor_id else []
  { s with
      ready_queue := q
      statistics := { s.statistics with ready_actors := s.statistics.ready_actors - 1 } }

/-- `scheduler_select_next_actor` (scheduler.c:536-546): "Simple round-robin
for now" — returns NULL when the ready queue is empty, else the HEAD of the
ready queue.  No priority, tick, or kernel-actor logic is present. -/
def scheduler_select_next_actor (s : SchedState) : Option Nat :=
  s.ready_queue.head?

/-- `scheduler_context_switch` (scheduler.c:551-579). -/
def scheduler_context_switch (s : SchedState) (next_actor : Option Nat) : SchedState :=
  if s.current_actor = next_actor then s
  else
    let s1 :=
      match s.current_actor with
      | some cid =>
          match actor_get s cid with
          | some c =>
              if c.state = ACTOR_STATE_RUNNING then
                updateActor s cid (fun a => { a with state := ACTOR_STATE_READY })
              else s
          | none => s
      | none => s
    match next_actor with
    | some nid =>
        let s2 := { s1 with current_actor := some nid }
        let s3 := updateActor s2 nid
          (fun a => { a with state := ACTOR_STATE_RUNNING, last_scheduled := s.tick_count })
        scheduler_remove_from_ready_queue s3 nid
    | none => s1

/-- `scheduler_schedule` (scheduler.c:121-134). -/
def scheduler_schedule (s : SchedState) : SchedState :=
  if s.scheduler_enabled = false then s
  else
    let next := scheduler_select_next_actor s
    let s1 := if next ≠ s.current_actor then scheduler_context_switch s next else s
    { s1 with
        statistics := { s1.statistics with
                          context_switches := s1.statistics.context_switches + 1 } }

/-- `scheduler_yield` (scheduler.c:139-154): a RUNNING current actor is set
READY and pushed back onto the ready queue, then `scheduler_schedule` runs. -/
def scheduler_yield (s : SchedState) : SchedState :=
  if s.scheduler_initialized = false then s
  else
    let s1 :=
      match s.current_actor with
      | some cid =>
          match actor_get s cid with
          | some c =>
              if c.state = ACTOR_STATE_RUNNING then
                scheduler_add_to_ready_queue
                  (updateActor s cid (fun a => { a with state := ACTOR_STATE_READY }))
                  { c with state := ACTOR_STATE_READY }
              else s
          | none => s
      | none => s
    scheduler_schedule s1

/-! ## Message allocation and sending (scheduler.c) -/

/-- `message_allocate` (scheduler.c:693-703): first pool slot whose used flag
is clear, marked used; NULL when the pool is exhausted. -/
def message_allocate (pool : List Bool) : Option (Nat × List Bool) :=
  match pool.findIdx? (fun used => !used) with
  | some i => some (i, pool.set i true)
  | none => none

/-- `message_send_async` (scheduler.c:376-450).  `kmalloc` of the payload
copy is modelled as always succeeding (a by-value copy); pool-slot
allocation is exact.  On a failed enqueue the message and its slot are freed
again (scheduler.c:443-449). -/
def message_send_async (s : SchedState) (recipient_id : Nat) (type : Nat)
    (payload : List Nat) : SchedState × Bool :=
  if s.scheduler_initialized = false then (s, false)
  else
    match actor_get s recipient_id with
    | none => (s, false)
    | some recipient =>
      match message_allocate s.message_pool_used with
      | none => (s, false)
      | some (idx, pool') =>
        let message : Message :=
          { sender_id := match s.current_actor with | some cid => cid | none => 0
            recipient_id := recipient_id
            message_id := s.statistics.messages_sent + 1
            type := type
            priority := ACTOR_PRIORITY_NORMAL
            flags := 0
            payload := payload
            payload_size := payload.length
            timestamp := s.tick_count
            deadline := 0
            reply_to := 0
            requires_reply := false }
        match actor_add_message recipient message with
        | some recipient' =>
            let s1 := { s with message_pool_used := pool' }
            let s2 := updateActor s1 recipient_id (fun _ => recipient')
            let s3 := { s2 with
                          statistics := { s2.statistics with
                              messages_sent := s2.statistics.messages_sent + 1 } }
            let s4 := match s3.current_actor with
                      | some cid =>
                          updateActor s3 cid
                            (fun a => { a with messages_sent := a.messages_sent + 1 })
                      | none => s3
            let s5 := if recipient'.state = ACTOR_STATE_BLOCKED then
                        scheduler_add_to_ready_queue
                          (updateActor s4 recipient_id
                            (fun a => { a with state := ACTOR_STATE_READY }))
                          { recipient' with state := ACTOR_STATE_READY }
                      else s4
            (s5, true)
        | none =>
            ({ s with message_pool_used := pool'.set idx false }, false)

/-- `message_receive` (scheduler.c:455-476): non-blocking dequeue from the
CURRENT actor's mailbox, updating the delivery statistic. -/
def message_receive (s : SchedState) : Option Message × SchedState :=
  match s.current_actor with
  | none => (none, s)
  | some cid =>
    match actor_get s cid with
    | none => (none, s)
    | some c =>
      match c.message_queue with
      | [] => (none, s)
      | _ :: _ =>
        let p := actor_receive c
        let s1 := updateActor s cid (fun _ => p.2)
        (p.1, { s1 with
                  statistics := { s1.statistics with
                      messages_delivered := s1.statistics.messages_delivered + 1 } })

/-- `message_wait` (scheduler.c:481-504).  The `timeout_ms` argument is
never read by the C code ("TODO: Implement timeout handling"): on an empty
mailbox the current actor is unconditionally marked BLOCKED, removed from
the ready queue, and the scheduler yields; afterwards `message_receive` runs
again on whichever actor is then current. -/
def message_wait (s : SchedState) (timeout_ms : Nat) : Option Message × SchedState :=
  match s.current_actor with
  | none => (none, s)
  | some cid =>
    match message_receive s with
    | (some m, s1) => (some m, s1)
    | (none, s1) =>
      let s2 := updateActor s1 cid (fun a => { a with state := ACTOR_STATE_BLOCKED })
      let s3 := scheduler_remove_from_ready_queue s2 cid
      let s4 := scheduler_yield s3
      message_receive s4

/-! ## Mailbox traces (for the FIFO property) -/

/-- An observable mailbox operation: a send arriving at this mailbox
(`actor_add_message`, dropped when the queue is full, as
`message_send_async` does), or the owner's `receive`. -/
inductive MOp where
  | send (m : Message)
  | recv
deriving DecidableEq, Repr

structure TraceResult where
  actor : Actor
  delivered : List Message
  enqueued : List Message
deriving DecidableEq, Repr

/-- Run a sequence of mailbox operations, collecting the messages the owner
receives (`delivered`, in delivery order) and the messages that were
successfully enqueued (`enqueued`, in enqueue order). -/
def runMailboxTrace (a : Actor) : List MOp → TraceResult
  | [] => ⟨a, [], []⟩
  | MOp.send m :: ops =>
      match actor_add_message a m with
      | some a' =>
          let r := runMailboxTrace a' ops
          ⟨r.actor, r.delivered, m :: r.enqueued⟩
      | none => runMailboxTrace a ops
  | MOp.recv :: ops =>
      let p := actor_receive a
      let r := runMailboxTrace p.2 ops
      ⟨r.actor, p.1.toList ++ r.delivered, r.enqueued⟩

/-! ## Concrete states used to settle scheduler claims -/

def stats0 : SchedStats :=
  { context_switches := 0, actors_created := 0, actors_destroyed := 0
    messages_sent := 0, messages_delivered := 0, cpu_time_total := 0
    current_actors := 0, ready_actors := 0, blocked_actors := 0
    average_queue_depth := 0, scheduler_overhead := 0
    deadlocks_detected := 0, load_balance_actions := 0 }

/-- The kernel actor built by `actor_create_kernel_actor`
(scheduler.c:633-684): id 0, RUNNING, priority CRITICAL, mailbox cap 256. -/
def kernel_actor : Actor :=
  { actor_id := 0, parent_id := 0, state := ACTOR_STATE_RUNNING
    priority := ACTOR_PRIORITY_CRITICAL, flags := 0, stack_size := 0
    message_queue := [], queue_size := 0, max_queue_size := 256
    cpu_time_used := 0, messages_sent := 0, messages_received := 0
    creation_time := 0, last_scheduled := 0, memory_limit := 0
    memory_used := 0, error_code := 0, behavior_score := 100
    anomaly_count := 0, ai_monitored := false }

/-- An actor as produced by `actor_create` (scheduler.c:192-290) with the
given id, priority and state: mailbox cap 64, 1 MiB memory limit. -/
def mkActor (actor_id priority state : Nat) : Actor :=
  { actor_id := actor_id, parent_id := 0, state := state
    priority := priority, flags := 0, stack_size := 8192
    message_queue := [], queue_size := 0, max_queue_size := 64
    cpu_time_used := 0, messages_sent := 0, messages_received := 0
    creation_time := 0, last_scheduled := 0, memory_limit := 1024 * 1024
    memory_used := 8192, error_code := 0, behavior_score := 100
    anomaly_count := 0, ai_monitored := true }

/-- A Ready CRITICAL-priority actor (id 1) and a Ready LOW-priority actor
(id 2), with id 1 enqueued first and id 2 enqueued last. -/
def cexState1 : SchedState :=
  scheduler_add_to_ready_queue
    (scheduler_add_to_ready_queue
      { scheduler_initialized := true, scheduler_enabled := true
        actors := [kernel_actor,
                   mkActor 1 ACTOR_PRIORITY_CRITICAL ACTOR_STATE_READY,
                   mkActor 2 ACTOR_PRIORITY_LOW ACTOR_STATE_READY]
        ready_queue := [], current_actor := some 0, tick_count := 0
        current_timeslice := 0, message_pool_used := [false]
        statistics := stats0 }
      (mkActor 1 ACTOR_PRIORITY_CRITICAL ACTOR_STATE_READY))
    (mkActor 2 ACTOR_PRIORITY_LOW ACTOR_STATE_READY)

/-- A state in which the kernel actor (id 0) is Ready in the queue (as after
a kernel yield) together with another Ready actor (id 5), the kernel actor
enqueued last. -/
def cexState2 : SchedState :=
  scheduler_add_to_ready_queue
    (scheduler_add_to_ready_queue
      { scheduler_initialized := true, scheduler_enabled := true
        actors := [{ kernel_actor with state := ACTOR_STATE_READY },
                   mkActor 5 ACTOR_PRIORITY_NORMAL ACTOR_STATE_READY]
        ready_queue := [], current_actor := none, tick_count := 0
        current_timeslice := 0, message_pool_used := [false]
        statistics := stats0 }
      (mkActor 5 ACTOR_PRIORITY_NORMAL ACTOR_STATE_READY))
    { kernel_actor with state := ACTOR_STATE_READY }

/-- A small asynchronous message with payload byte `n`. -/
def wMsg (n : Nat) : Message :=
  { sender_id := 0, recipient_id := 9, message_id := n, type := MSG_TYPE_ASYNC
    priority := ACTOR_PRIORITY_NORMAL, flags := 0, payload := [n]
    payload_size := 1, timestamp := 0, deadline := 0, reply_to := 0
    requires_reply := false }

/-- A freshly created actor (id 9) whose mailbox capacity is 2. -/
def wBoxActor0 : Actor :=
  { mkActor 9 ACTOR_PRIORITY_NORMAL ACTOR_STATE_READY with max_queue_size := 2 }

def wBoxActor1 : Actor :=
  { wBoxActor0 with message_queue := [wMsg 1], queue_size := 1 }

def wBoxActor2 : Actor :=
  { wBoxActor0 with message_queue := [wMsg 1, wMsg 2], queue_size := 2 }

/-- A scheduler state holding `wBoxActor2` (mailbox at capacity 2/2). -/
def wSchedC6 : SchedState :=
  { scheduler_initialized := true, scheduler_enabled := true
    actors := [wBoxActor2], ready_queue := [9], current_actor := none
    tick_count := 0, current_timeslice := 0, message_pool_used := [false]
    statistics := stats0 }

/-- Four operations: a NORMAL-priority send, then a CRITICAL-priority send,
then two receives; the first delivery is the first enqueue even though the
second message has higher priority. -/
def wOpsC7 : List MOp :=
  [MOp.send (wMsg 1),
   MOp.send { wMsg 2 with priority := ACTOR_PRIORITY_CRITICAL },
   MOp.recv, MOp.recv]

/-- An initialized, enabled scheduler whose current actor (id 1) is RUNNING
with an empty mailbox; the ready queue is empty. -/
def wSchedC8 : SchedState :=
  { scheduler_initialized := true, scheduler_enabled := true
    actors := [mkActor 1 ACTOR_PRIORITY_NORMAL ACTOR_STATE_RUNNING]
    ready_queue := [], current_actor := some 1, tick_count := 3
    current_timeslice := 0, message_pool_used := [false]
    statistics := stats0 }

/-! ## Constants from `modules.h` -/

def MAX_MODULES : Nat := 64
def MAX_MODULE_NAME : Nat := 64
def MAX_MODULE_SIZE : Nat := 1024 * 1024
def MODULE_MAGIC : Nat := 0x4D4F44
def MODULE_VERSION : Nat := 1
def MODULE_HEADER_SIZE : Nat := 572

def MODULE_STATE_UNLOADED : Nat := 0
def MODULE_STATE_LOADING : Nat := 1
def MODULE_STATE_LOADED : Nat := 2
def MODULE_STATE_RUNNING : Nat := 3
def MODULE_STATE_UNLOADING : Nat := 4
def MODULE_STATE_ERROR : Nat := 5
def MODULE_STATE_SUSPENDED : Nat := 6

def MODULE_FLAG_CORE : Nat := 0x01
def MODULE_FLAG_AUTO_START : Nat := 0x02
def MODULE_FLAG_HOT_SWAP : Nat := 0x04
def MODULE_FLAG_AI_MONITOR : Nat := 0x08
def MODULE_FLAG_PRIVILEGED : Nat := 0x10
def MODULE_FLAG_PERSISTENT : Nat := 0x20

/-! ## Module images (`module_header_t`, modules.h)

`sizeof(module_header_t)` is 572 bytes (3 u32, 512 bytes of strings,
u8+u8+u16, 9 u32, 2 u32).  The description/author/license strings are never
read by the embedded operations and are omitted.  A module's `init` function
is module code invoked through a pointer; its return value is external to
the kernel state, so the image carries it as the field `init_ret`. -/

structure ModuleHeader where
  magic : Nat
  version : Nat
  module_version : Nat
  name : List Char
  type : Nat
  priority : Nat
  flags : Nat
  code_size : Nat
  data_size : Nat
  bss_size : Nat
  entry_point : Nat
  exit_point : Nat
  symbol_count : Nat
  symbol_table_offset : Nat
  dependency_count : Nat
  dependency_table_offset : Nat
  checksum : Nat
  signature : Nat
deriving DecidableEq, Repr

structure ModuleImage where
  header : ModuleHeader
  code : List Nat
  data : List Nat
  init_ret : Int
deriving DecidableEq, Repr

/-! ## Module records and system state (`module_t`, `module_system_t`) -/

/-- `module_t`.  Raw addresses (`base_address`, `code_address`,
`data_address`), the symbol/dependency arrays (left NULL and 0 by
module_load — "simplified for now") and the function pointers are modelled
by their observable content: `init_func` is the init result when an entry
point exists, `exit_func` records whether an exit point exists.
`pool_index` is the slot this record occupies in `module_pool`. -/
structure ModuleRec where
  module_id : Nat
  name : List Char
  state : Nat
  type : Nat
  flags : Nat
  total_size : Nat
  init_func : Option Int
  exit_func : Bool
  symbol_count : Nat
  dependency_count : Nat
  dependent_count : Nat
  load_time : Nat
  cpu_time : Nat
  memory_allocated : Nat
  function_calls : Nat
  error_count : Nat
  behavior_score : Nat
  anomaly_count : Nat
  ai_monitored : Bool
  ref_count : Nat
  pool_index : Nat
deriving DecidableEq, Repr

structure ModuleStats where
  modules_loaded : Nat
  modules_unloaded : Nat
  hot_swaps : Nat
  load_errors : Nat
  dependency_failures : Nat
  symbol_lookups : Nat
  total_memory_used : Nat
  ai_interventions : Nat
deriving DecidableEq, Repr

/-- `module_system_t` plus the global `module_system_initialized`.  The
intrusive `loaded_modules` list is a Lean list (head = C list head); the
pool usage flags are kept verbatim. -/
structure ModuleSystem where
  initialized : Bool
  loaded_modules : List ModuleRec
  module_count : Nat
  next_module_id : Nat
  module_pool_used : List Bool
  global_symbol_count : Nat
  system_enabled : Bool
  hot_swap_enabled : Bool
  ai_supervision : Bool
  signature_checking : Bool
  sandboxing_enabled : Bool
  statistics : ModuleStats
deriving DecidableEq, Repr

/-- `modules_init` (modules.c:33-81): note `sandboxing_enabled := false`
("Disabled for now") — module loading is not wired to the sandbox engine. -/
def modules_init : ModuleSystem :=
  { initialized := true, loaded_modules := [], module_count := 0
    next_module_id := 1
    module_pool_used := List.replicate MAX_MODULES false
    global_symbol_count := 0
    system_enabled := true, hot_swap_enabled := true, ai_supervision := true
    signature_checking := false, sandboxing_enabled := false
    statistics := { modules_loaded := 0, modules_unloaded := 0, hot_swaps := 0
                    load_errors := 0, dependency_failures := 0
                    symbol_lookups := 0, total_memory_used := 0
                    ai_interventions := 0 } }

/-- `module_get` (modules.c:301-316): walk the loaded list for the id. -/
def module_get (ms : ModuleSystem) (module_id : Nat) : Option ModuleRec :=
  if ms.initialized = false then none
  else ms.loaded_modules.find? (fun m => m.module_id == module_id)

/-- `module_find_by_name` (modules.c:321-349).  The C char-by-char loop over
NUL-terminated buffers is list equality of the names. -/
def module_find_by_name (ms : ModuleSystem) (name : List Char) : Option ModuleRec :=
  if ms.initialized = false then none
  else ms.loaded_modules.find? (fun m => m.name == name)

/-- `module_validate` (modules.c:533-576). -/
def module_validate (module_data : Option ModuleImage) (size : Nat) : Bool :=
  match module_data with
  | none => false
  | some img =>
    if size < MODULE_HEADER_SIZE then false
    else if img.header.magic ≠ MODULE_MAGIC then false
    else if img.header.version ≠ MODULE_VERSION then false
    else if size < MODULE_HEADER_SIZE + img.header.code_size + img.header.data_size
      then false
    else if img.header.code_size > MAX_MODULE_SIZE ∨
            img.header.data_size > MAX_MODULE_SIZE ∨
            img.header.bss_size > MAX_MODULE_SIZE then false
    else true

/-- `module_allocate` (modules.c:581-591): first free pool slot. -/
def module_allocate (ms : ModuleSystem) : Option (Nat × ModuleSystem) :=
  match ms.module_pool_used.findIdx? (fun used => !used) with
  | some i => some (i, { ms with module_pool_used := ms.module_pool_used.set i true })
  | none => none

/-- `module_free` (modules.c:596-609): release the pool slot. -/
def module_free (ms : ModuleSystem) (pool_index : Nat) : ModuleSystem :=
  { ms with module_pool_used := ms.module_pool_used.set pool_index false }

/-- `module_add_to_list` (modules.c:614-629): head insertion. -/
def module_add_to_list (ms : ModuleSystem) (m : ModuleRec) : ModuleSystem :=
  { ms with loaded_modules := m :: ms.loaded_modules
            module_count := ms.module_count + 1 }

/-- `module_remove_from_list` (modules.c:634-653); only ever called (from
`module_unload`) on a module found in the list, where the pointer unlink
removes exactly that record. -/
def module_remove_from_list (ms : ModuleSystem) (module_id : Nat) : ModuleSystem :=
  { ms with
      loaded_modules := ms.loaded_modules.eraseP (fun m => m.module_id == module_id)
      module_count := ms.module_count - 1 }

/-- Mutation of one module record through a pointer into the list. -/
def updateModuleList : List ModuleRec → Nat → (ModuleRec → ModuleRec) → List ModuleRec
  | [], _, _ => []
  | m :: rest, module_id, f =>
      if m.module_id = module_id then f m :: rest
      else m :: updateModuleList rest module_id f

def updateModule (ms : ModuleSystem) (module_id : Nat)
    (f : ModuleRec → ModuleRec) : ModuleSystem :=
  { ms with loaded_modules := updateModuleList ms.loaded_modules module_id f }

/-- `module_start` (modules.c:399-424): requires state LOADED; a non-zero
init result puts the module in ERROR, otherwise it becomes RUNNING. -/
def module_start (ms : ModuleSystem) (module_id : Nat) : ModuleSystem × Bool :=
  match module_get ms module_id with
  | none => (ms, false)
  | some m =>
    if m.state ≠ MODULE_STATE_LOADED then (ms, false)
    else
      match m.init_func with
      | some r =>
          if r ≠ 0 then
            (updateModule ms module_id
              (fun m => { m with state := MODULE_STATE_ERROR
                                 error_count := m.error_count + 1 }), false)
          else
            (updateModule ms module_id
              (fun m => { m with state := MODULE_STATE_RUNNING }), true)
      | none =>
          (updateModule ms module_id
            (fun m => { m with state := MODULE_STATE_RUNNING }), true)

/-- `module_load` (modules.c:86-234).  `kmalloc` for the image region is
modelled as always succeeding; the section byte copies and BSS zeroing act
on memory outside the kernel state.  The returned `Nat` is the new module id
(0 = failure), as in C. -/
def module_load (ms : ModuleSystem) (module_data : Option ModuleImage)
    (size : Nat) : ModuleSystem × Nat :=
  if ms.initialized = false ∨ module_data = none ∨ size = 0 then (ms, 0)
  else
    match module_data with
    | none => (ms, 0)
    | some img =>
      if module_validate (some img) size = false then
        ({ ms with statistics := { ms.statistics with
              load_errors := ms.statistics.load_errors + 1 } }, 0)
      else
        match module_find_by_name ms img.header.name with
        | some _ => (ms, 0)
        | none =>
          match module_allocate ms with
          | none =>
              ({ ms with statistics := { ms.statistics with
                    load_errors := ms.statistics.load_errors + 1 } }, 0)
          | some (idx, ms1) =>
              let mid := ms1.next_module_id
              let ms2 := { ms1 with next_module_id := ms1.next_module_id + 1 }
              let total_size := img.header.code_size + img.header.data_size
                                  + img.header.bss_size
              let m : ModuleRec :=
                { module_id := mid
                  name := img.header.name.take (MAX_MODULE_NAME - 1)
                  state := MODULE_STATE_LOADING
                  type := img.header.type
                  flags := img.header.flags
                  total_size := total_size
                  init_func := if img.header.entry_point ≠ 0
                               then some img.init_ret else none
                  exit_func := img.header.exit_point != 0
                  symbol_count := 0
                  dependency_count := 0
                  dependent_count := 0
                  load_time := 0
                  cpu_time := 0
                  memory_allocated := total_size
                  function_calls := 0
                  error_count := 0
                  behavior_score := 100
                  anomaly_count := 0
                  ai_monitored := (img.header.flags &&& MODULE_FLAG_AI_MONITOR) != 0
                  ref_count := 1
                  pool_index := idx }
              let ms3 := module_add_to_list ms2 m
              let ms4 := { ms3 with statistics := { ms3.statistics with
                    modules_loaded := ms3.statistics.modules_loaded + 1
                    total_memory_used := ms3.statistics.total_memory_used + total_size } }
              let ms5 := updateModule ms4 mid
                (fun m => { m with state := MODULE_STATE_LOADED })
              let ms6 := if img.header.flags &&& MODULE_FLAG_AUTO_START ≠ 0
                         then (module_start ms5 mid).1 else ms5
              (ms6, mid)

/-- `module_unload` (modules.c:239-296): refuse for a missing module, a
`Core` module, or a module with dependents — all BEFORE any mutation; only
past these guards is the state set to UNLOADING (line 263) and the module
removed, its memory freed, and its slot released. -/
def module_unload (ms : ModuleSystem) (module_id : Nat) : ModuleSystem × Bool :=
  match module_get ms module_id with
  | none => (ms, false)
  | some m =>
    if m.flags &&& MODULE_FLAG_CORE ≠ 0 then (ms, false)
    else if m.dependent_count > 0 then (ms, false)
    else
      let ms1 := updateModule ms module_id
        (fun m => { m with state := MODULE_STATE_UNLOADING })
      let ms2 := module_remove_from_list ms1 module_id
      let ms3 := { ms2 with statistics := { ms2.statistics with
            modules_unloaded := ms2.statistics.modules_unloaded + 1
            total_memory_used := ms2.statistics.total_memory_used - m.memory_allocated } }
      let ms4 := module_free ms3 m.pool_index
      (ms4, true)

/-! ## Constants from `sandboxing.h` -/

def MAX_SANDBOXES : Nat := 32
def MAX_RESOURCE_LIMITS : Nat := 16
def MAX_VIOLATION_LOG : Nat := 100

def SANDBOX_LEVEL_UNRESTRICTED : Nat := 0
def SANDBOX_LEVEL_TRUSTED : Nat := 1
def SANDBOX_LEVEL_USER : Nat := 2
def SANDBOX_LEVEL_UNTRUSTED : Nat := 3
def SANDBOX_LEVEL_QUARANTINE : Nat := 4

def CAP_MEMORY_ALLOC : Nat := 0x00000001
def CAP_MEMORY_FREE : Nat := 0x00000002
def CAP_MEMORY_MAP : Nat := 0x00000004
def CAP_MEMORY_UNMAP : Nat := 0x00000008
def CAP_MEMORY_PROTECT : Nat := 0x00000010
def CAP_SCHEDULER_CREATE : Nat := 0x00000020
def CAP_SCHEDULER_DESTROY : Nat := 0x00000040
def CAP_SCHEDULER_MODIFY : Nat := 0x00000080
def CAP_SCHEDULER_SIGNAL : Nat := 0x00000100
def CAP_MODULE_LOAD : Nat := 0x00000200
def CAP_MODULE_UNLOAD : Nat := 0x00000400
def CAP_MODULE_QUERY : Nat := 0x00000800
def CAP_VGA_WRITE : Nat := 0x00001000
def CAP_VGA_CLEAR : Nat := 0x00002000
def CAP_VGA_CURSOR : Nat := 0x00004000
def CAP_HARDWARE_IO : Nat := 0x00008000
def CAP_INTERRUPT_HANDLE : Nat := 0x00010000
def CAP_TIMER_ACCESS : Nat := 0x00020000
def CAP_FILESYSTEM_READ : Nat := 0x00040000
def CAP_FILESYSTEM_WRITE : Nat := 0x00080000
def CAP_FILESYSTEM_CREATE : Nat := 0x00100000
def CAP_FILESYSTEM_DELETE : Nat := 0x00200000
def CAP_NETWORK_SEND : Nat := 0x00400000
def CAP_NETWORK_RECV : Nat := 0x00800000
def CAP_NETWORK_SOCKET : Nat := 0x01000000
def CAP_AI_QUERY : Nat := 0x02000000
def CAP_AI_CONFIGURE : Nat := 0x04000000
def CAP_DEBUG_ACCESS : Nat := 0x08000000
def CAP_SYSTEM_SHUTDOWN : Nat := 0x10000000
def CAP_SECURITY_OVERRIDE : Nat := 0x20000000

def RESOURCE_MEMORY : Nat := 0
def RESOURCE_CPU_TIME : Nat := 1
def RESOURCE_FILE_HANDLES : Nat := 2
def RESOURCE_NETWORK_CONN : Nat := 3
def RESOURCE_CHILD_ACTORS : Nat := 4
def RESOURCE_HEAP_ALLOCS : Nat := 5
def RESOURCE_MODULE_CALLS : Nat := 6
def RESOURCE_AI_QUERIES : Nat := 7

def VIOLATION_CAPABILITY : Nat := 0
def VIOLATION_RESOURCE : Nat := 1
def VIOLATION_MEMORY : Nat := 2
def VIOLATION_EXECUTION : Nat := 3
def VIOLATION_POLICY : Nat := 4

/-! ## Sandbox data structures (sandboxing.h)

The execution-context fields of `sandbox_context_t` (`memory_base`,
`stack_base`, the WASM-VM fields) are machine-level and never read by the
embedded operations.  `limit_count` always equals the number of limit
records (it is incremented exactly when a record is appended at index
`limit_count`), so the list length stands in for it. -/

structure ResourceLimit where
  resource_type : Nat
  limit : Nat
  current_usage : Nat
  peak_usage : Nat
  enforce : Bool
deriving DecidableEq, Repr

structure SecurityViolation where
  violation_id : Nat
  timestamp : Nat
  module_id : Nat
  violation_type : Nat
  attempted_capability : Nat
  attempted_resource : Nat
  description : List Char
  action_taken : Bool
deriving DecidableEq, Repr

structure SandboxCtx where
  sandbox_id : Nat
  module_id : Nat
  security_level : Nat
  active : Bool
  capabilities : Nat
  denied_capabilities : Nat
  limits : List ResourceLimit
  function_calls : Nat
  memory_allocations : Nat
  capability_checks : Nat
  violations : Nat
  last_violation_id : Nat
deriving DecidableEq, Repr

/-- `sandboxing_system_state_t` plus the global `sandboxing_initialized`.
The `sandboxes[MAX_SANDBOXES]` slot array is modelled as the list of
occupied slots (each context keeps its `active` flag); the `violations`
ring buffer of the last `MAX_VIOLATION_LOG` entries is modelled by the full
chronological log list (the ring holds its suffix), with
`violation_count`/`violation_index` maintained exactly as in C. -/
structure SandboxSystem where
  initialized : Bool
  sandboxes : List SandboxCtx
  sandbox_count : Nat
  next_sandbox_id : Nat
  default_capabilities : List Nat
  strict_enforcement : Bool
  logging_enabled : Bool
  violation_log : List SecurityViolation
  violation_count : Nat
  violation_index : Nat
  next_violation_id : Nat
  total_capability_checks : Nat
  total_violations : Nat
  total_enforcements : Nat
  quarantined_modules : Nat
deriving DecidableEq, Repr

/-- `sandboxing_init_default_policies` (sandboxing.c:112-138): the
per-level default capability masks, indexed by security level. -/
def sandboxing_init_default_policies : List Nat :=
  [0xFFFFFFFF,
   CAP_MEMORY_ALLOC ||| CAP_MEMORY_FREE ||| CAP_SCHEDULER_CREATE |||
     CAP_SCHEDULER_SIGNAL ||| CAP_MODULE_QUERY ||| CAP_VGA_WRITE |||
     CAP_VGA_CLEAR ||| CAP_TIMER_ACCESS ||| CAP_AI_QUERY ||| CAP_DEBUG_ACCESS,
   CAP_MEMORY_ALLOC ||| CAP_MEMORY_FREE ||| CAP_SCHEDULER_SIGNAL |||
     CAP_MODULE_QUERY ||| CAP_VGA_WRITE ||| CAP_TIMER_ACCESS ||| CAP_AI_QUERY,
   CAP_MEMORY_ALLOC ||| CAP_MEMORY_FREE ||| CAP_MODULE_QUERY,
   CAP_MODULE_QUERY]

/-- `sandboxing_init` (sandboxing.c:37-75): strict enforcement and logging
start enabled. -/
def sandboxing_init : SandboxSystem :=
  { initialized := true, sandboxes := [], sandbox_count := 0
    next_sandbox_id := 1
    default_capabilities := sandboxing_init_default_policies
    strict_enforcement := true, logging_enabled := true
    violation_log := [], violation_count := 0, violation_index := 0
    next_violation_id := 1
    total_capability_checks := 0, total_violations := 0
    total_enforcements := 0, quarantined_modules := 0 }

/-- An active sandbox bound to the module id. -/
def sbMatch (module_id : Nat) (sb : SandboxCtx) : Bool :=
  sb.active && sb.module_id == module_id

/-- `sandboxing_find_sandbox_by_module` (sandboxing.c:309-321). -/
def sandboxing_find_sandbox_by_module (s : SandboxSystem) (module_id : Nat) :
    Option SandboxCtx :=
  if s.initialized = false then none
  else s.sandboxes.find? (sbMatch module_id)

/-- Mutation of the found sandbox through its pointer. -/
def updateSandboxList : List SandboxCtx → Nat → (SandboxCtx → SandboxCtx) →
    List SandboxCtx
  | [], _, _ => []
  | sb :: rest, module_id, f =>
      if sbMatch module_id sb then f sb :: rest
      else sb :: updateSandboxList rest module_id f

def updateSandbox (s : SandboxSystem) (module_id : Nat)
    (f : SandboxCtx → SandboxCtx) : SandboxSystem :=
  { s with sandboxes := updateSandboxList s.sandboxes module_id f }

/-- `sandboxing_log_violation` (sandboxing.c:666-701): appends an entry (the
description truncated to 127 chars), advances the ring index, saturates the
ring count at `MAX_VIOLATION_LOG`, and counts the violation. -/
def sandboxing_log_violation (s : SandboxSystem)
    (module_id violation_type capability : Nat) (description : List Char) :
    SandboxSystem :=
  if s.logging_enabled = false then s
  else
    { s with
        violation_log := s.violation_log ++
          [{ violation_id := s.next_violation_id, timestamp := 0
             module_id := module_id, violation_type := violation_type
             attempted_capability := capability, attempted_resource := 0
             description := description.take 127, action_taken := false }]
        next_violation_id := s.next_violation_id + 1
        violation_index := (s.violation_index + 1) % MAX_VIOLATION_LOG
        violation_count := if s.violation_count < MAX_VIOLATION_LOG
                           then s.violation_count + 1 else s.violation_count
        total_violations := s.total_violations + 1 }

/-- `sandboxing_has_capability` (sandboxing.c:330-359): fail-open when the
system is uninitialized or the module has no sandbox; denied wins; a failing
check logs a Capability violation. -/
def sandboxing_has_capability (s : SandboxSystem) (module_id capability : Nat) :
    Bool × SandboxSystem :=
  if s.initialized = false then (true, s)
  else
    match sandboxing_find_sandbox_by_module s module_id with
    | none => (true, s)
    | some sb =>
      let s1 := updateSandbox s module_id
        (fun sb => { sb with capability_checks := sb.capability_checks + 1 })
      let s2 := { s1 with total_capability_checks := s1.total_capability_checks + 1 }
      if sb.denied_capabilities &&& capability ≠ 0 then
        (false, sandboxing_log_violation s2 module_id VIOLATION_CAPABILITY
                  capability ("Capability explicitly denied".toList))
      else if sb.capabilities &&& capability ≠ 0 then (true, s2)
      else
        (false, sandboxing_log_violation s2 module_id VIOLATION_CAPABILITY
                  capability ("Capability not granted".toList))

/-- The in-place update of an existing limit record performed by
`sandboxing_set_resource_limit` once the record is found. -/
def applyLimit (limits : List ResourceLimit) (resource_type limit : Nat) :
    List ResourceLimit :=
  match limits with
  | [] => []
  | l :: rest =>
      if l.resource_type = resource_type then
        { l with limit := limit, enforce := true } :: rest
      else l :: applyLimit rest resource_type limit

/-- `sandboxing_set_resource_limit` (sandboxing.c:434-476): update the
existing record for the resource, or append a fresh one if there is room. -/
def sandboxing_set_resource_limit (s : SandboxSystem)
    (module_id resource_type limit : Nat) : SandboxSystem × Int :=
  if s.initialized = false then (s, -1)
  else
    match sandboxing_find_sandbox_by_module s module_id with
    | none => (s, -2)
    | some sb =>
      if resource_type ≥ MAX_RESOURCE_LIMITS then (s, -3)
      else if sb.limits.any (fun l => l.resource_type == resource_type) then
        (updateSandbox s module_id
          (fun sb => { sb with limits := applyLimit sb.limits resource_type limit }), 0)
      else if sb.limits.length < MAX_RESOURCE_LIMITS then
        (updateSandbox s module_id
          (fun sb => { sb with limits := sb.limits ++
            [{ resource_type := resource_type, limit := limit
               current_usage := 0, peak_usage := 0, enforce := true }] }), 0)
      else (s, -4)

/-- The usage/peak update performed by `sandboxing_update_resource_usage` on
the matching record: a negative delta larger than the usage clamps to 0
(sandboxing.c:540-548), and the peak tracks the new usage. -/
def bumpUsage (l : ResourceLimit) (delta : Int) : ResourceLimit :=
  let usage := if delta < 0 ∧ (-delta).toNat > l.current_usage then 0
               else ((l.current_usage : Int) + delta).toNat
  { l with current_usage := usage
           peak_usage := max l.peak_usage usage }

def applyUsage (limits : List ResourceLimit) (resource_type : Nat) (delta : Int) :
    List ResourceLimit :=
  match limits with
  | [] => []
  | l :: rest =>
      if l.resource_type = resource_type then bumpUsage l delta :: rest
      else l :: applyUsage rest resource_type delta

/-- `sandboxing_update_resource_usage` (sandboxing.c:529-555). -/
def sandboxing_update_resource_usage (s : SandboxSystem)
    (module_id resource_type : Nat) (delta : Int) : SandboxSystem × Int :=
  if s.initialized = false then (s, 0)
  else
    match sandboxing_find_sandbox_by_module s module_id with
    | none => (s, 0)
    | some sb =>
      if sb.limits.any (fun l => l.resource_type == resource_type) then
        (updateSandbox s module_id
          (fun sb => { sb with limits := applyUsage sb.limits resource_type delta }), 0)
      else (s, -1)

/-- `sandboxing_check_resource_limit` (sandboxing.c:500-524): fail-open when
uninitialized, sandbox-less, or no limit record; denial logs a Resource
violation (the C passes the resource type in the capability slot). -/
def sandboxing_check_resource_limit (s : SandboxSystem)
    (module_id resource_type requested : Nat) : Bool × SandboxSystem :=
  if s.initialized = false then (true, s)
  else
    match sandboxing_find_sandbox_by_module s module_id with
    | none => (true, s)
    | some sb =>
      match sb.limits.find? (fun l => l.resource_type == resource_type) with
      | none => (true, s)
      | some l =>
        if l.enforce = false then (true, s)
        else if l.current_usage + requested > l.limit then
          (false, sandboxing_log_violation s module_id VIOLATION_RESOURCE
                    resource_type ("Resource limit exceeded".toList))
        else (true, s)

/-- `sandboxing_check_memory_access` (sandboxing.c:564-586): both the read
and the write path require `CAP_MEMORY_ALLOC`; NULL/zero-size accesses are
rejected with a Memory violation ("TODO" in the source leaves the region
check at this basic validation). -/
def sandboxing_check_memory_access (s : SandboxSystem) (module_id : Nat)
    (address size : Nat) (write : Bool) : Bool × SandboxSystem :=
  if s.initialized = false then (true, s)
  else
    match sandboxing_find_sandbox_by_module s module_id with
    | none => (true, s)
    | some _ =>
      let required_cap := if write then CAP_MEMORY_ALLOC else CAP_MEMORY_ALLOC
      match sandboxing_has_capability s module_id required_cap with
      | (false, s1) => (false, s1)
      | (true, s1) =>
        if address = 0 ∨ size = 0 then
          (false, sandboxing_log_violation s1 module_id VIOLATION_MEMORY 0
                    ("Invalid memory access parameters".toList))
        else (true, s1)

/-- The prefix comparison of `sandboxing_check_function_call`'s deny-list
loop: the scan stops at the first NUL of either string, so it accepts
whenever one name is a prefix of the other. -/
def name_matches_restricted : List Char → List Char → Bool
  | [], _ => true
  | _, [] => true
  | c :: fs, r :: rs => if c = r then name_matches_restricted fs rs else false

def restricted_funcs : List (List Char) :=
  ["system".toList, "exec".toList, "fork".toList,
   "kill".toList, "reboot".toList, "shutdown".toList]

/-- `sandboxing_check_function_call` (sandboxing.c:591-633): fail-open when
uninitialized or sandbox-less; counts the call, charges `ModuleCalls` and
checks that limit, then rejects names matching the built-in deny-list with
an Execution violation.  NOTE: no capability mask is consulted here. -/
def sandboxing_check_function_call (s : SandboxSystem) (module_id : Nat)
    (function_name : List Char) : Bool × SandboxSystem :=
  if s.initialized = false then (true, s)
  else
    match sandboxing_find_sandbox_by_module s module_id with
    | none => (true, s)
    | some _ =>
      let s1 := updateSandbox s module_id
        (fun sb => { sb with function_calls := sb.function_calls + 1 })
      let s2 := (sandboxing_update_resource_usage s1 module_id
                   RESOURCE_MODULE_CALLS 1).1
      match sandboxing_check_resource_limit s2 module_id RESOURCE_MODULE_CALLS 0 with
      | (false, s3) => (false, s3)
      | (true, s3) =>
        if restricted_funcs.any (fun r => name_matches_restricted function_name r) then
          (false, sandboxing_log_violation s3 module_id VIOLATION_EXECUTION 0
                    ("Restricted function call".toList))
        else (true, s3)

/-- `sandboxing_quarantine_module` (sandboxing.c:710-735): drop the sandbox
to level Quarantine with the Quarantine default capability mask, tighten the
Memory/ChildActors/HeapAllocs/ModuleCalls limits, and count the quarantine. -/
def sandboxing_quarantine_module (s : SandboxSystem) (module_id : Nat) :
    SandboxSystem × Int :=
  if s.initialized = false then (s, -1)
  else
    match sandboxing_find_sandbox_by_module s module_id with
    | none => (s, -2)
    | some _ =>
      let s1 := updateSandbox s module_id
        (fun sb => { sb with
            security_level := SANDBOX_LEVEL_QUARANTINE
            capabilities := s.default_capabilities.getD SANDBOX_LEVEL_QUARANTINE 0 })
      let s2 := (sandboxing_set_resource_limit s1 module_id RESOURCE_MEMORY
                   (256 * 1024)).1
      let s3 := (sandboxing_set_resource_limit s2 module_id RESOURCE_CHILD_ACTORS 0).1
      let s4 := (sandboxing_set_resource_limit s3 module_id RESOURCE_HEAP_ALLOCS 1).1
      let s5 := (sandboxing_set_resource_limit s4 module_id RESOURCE_MODULE_CALLS 10).1
      ({ s5 with quarantined_modules := s5.quarantined_modules + 1 }, 0)

/-- `sandboxing_handle_violation` (sandboxing.c:638-661): bump the
per-sandbox counter, log, and — under strict enforcement, for Capability or
Execution violations — quarantine the module once its counter exceeds 5. -/
def sandboxing_handle_violation (s : SandboxSystem)
    (module_id violation_type : Nat) (description : List Char) :
    SandboxSystem × Int :=
  if s.initialized = false then (s, -1)
  else
    let s1 := match sandboxing_find_sandbox_by_module s module_id with
              | some _ => updateSandbox s module_id
                  (fun sb => { sb with violations := sb.violations + 1 })
              | none => s
    let s2 := sandboxing_log_violation s1 module_id violation_type 0 description
    let s3 :=
      if s.strict_enforcement = true then
        if violation_type = VIOLATION_CAPABILITY ∨
           violation_type = VIOLATION_EXECUTION then
          match sandboxing_find_sandbox_by_module s2 module_id with
          | some sb => if sb.violations > 5
                       then (sandboxing_quarantine_module s2 module_id).1 else s2
          | none => s2
        else s2
      else s2
    (s3, 0)

/-- `sandboxing_create_sandbox` (sandboxing.c:147-255).  A free array slot
always exists when `sandbox_count < MAX_SANDBOXES` (the count tracks the
active slots), so the unreachable "no free slot" branch (-5) is absent. -/
def sandboxing_create_sandbox (s : SandboxSystem)
    (module_id security_level : Nat) : SandboxSystem × Int :=
  if s.initialized = false then (s, -1)
  else if s.sandbox_count ≥ MAX_SANDBOXES then (s, -2)
  else if security_level > SANDBOX_LEVEL_QUARANTINE then (s, -3)
  else if (sandboxing_find_sandbox_by_module s module_id).isSome then (s, -4)
  else
    let sb : SandboxCtx :=
      { sandbox_id := s.next_sandbox_id
        module_id := module_id
        security_level := security_level
        active := true
        capabilities := s.default_capabilities.getD security_level 0
        denied_capabilities := 0
        limits := []
        function_calls := 0
        memory_allocations := 0
        capability_checks := 0
        violations := 0
        last_violation_id := 0 }
    let s1 := { s with sandboxes := s.sandboxes ++ [sb]
                       next_sandbox_id := s.next_sandbox_id + 1 }
    let s2 :=
      if security_level = SANDBOX_LEVEL_TRUSTED then
        (sandboxing_set_resource_limit
          ((sandboxing_set_resource_limit
            ((sandboxing_set_resource_limit s1 module_id RESOURCE_MEMORY
                (4 * 1024 * 1024)).1)
            module_id RESOURCE_CHILD_ACTORS 10).1)
          module_id RESOURCE_HEAP_ALLOCS 1000).1
      else if security_level = SANDBOX_LEVEL_USER then
        (sandboxing_set_resource_limit
          ((sandboxing_set_resource_limit
            ((sandboxing_set_resource_limit
              ((sandboxing_set_resource_limit s1 module_id RESOURCE_MEMORY
                  (2 * 1024 * 1024)).1)
              module_id RESOURCE_CHILD_ACTORS 5).1)
            module_id RESOURCE_HEAP_ALLOCS 500).1)
          module_id RESOURCE_MODULE_CALLS 1000).1
      else if security_level = SANDBOX_LEVEL_UNTRUSTED then
        (sandboxing_set_resource_limit
          ((sandboxing_set_resource_limit
            ((sandboxing_set_resource_limit
              ((sandboxing_set_resource_limit
                ((sandboxing_set_resource_limit s1 module_id RESOURCE_MEMORY
                    (1 * 1024 * 1024)).1)
                module_id RESOURCE_CHILD_ACTORS 2).1)
              module_id RESOURCE_HEAP_ALLOCS 100).1)
            module_id RESOURCE_MODULE_CALLS 500).1)
          module_id RESOURCE_AI_QUERIES 10).1
      else if security_level = SANDBOX_LEVEL_QUARANTINE then
        (sandboxing_set_resource_limit
          ((sandboxing_set_resource_limit
            ((sandboxing_set_resource_limit
              ((sandboxing_set_resource_limit s1 module_id RESOURCE_MEMORY
                  (512 * 1024)).1)
              module_id RESOURCE_CHILD_ACTORS 0).1)
            module_id RESOURCE_HEAP_ALLOCS 10).1)
          module_id RESOURCE_MODULE_CALLS 100).1
      else s1
    ({ s2 with sandbox_count := s2.sandbox_count + 1 }, (s.next_sandbox_id : Int))

/-- A module system holding a Core module (id 1) and a module with one
dependent (id 2). -/
def wModSys : ModuleSystem :=
  { modules_init with
      loaded_modules :=
        [{ module_id := 1, name := "core_mod".toList, state := MODULE_STATE_RUNNING
           type := 0, flags := MODULE_FLAG_CORE, total_size := 100
           init_func := none, exit_func := false, symbol_count := 0
           dependency_count := 0, dependent_count := 0, load_time := 0
           cpu_time := 0, memory_allocated := 100, function_calls := 0
           error_count := 0, behavior_score := 100, anomaly_count := 0
           ai_monitored := false, ref_count := 1, pool_index := 0 },
         { module_id := 2, name := "lib_mod".toList, state := MODULE_STATE_RUNNING
           type := 0, flags := 0, total_size := 200
           init_func := none, exit_func := false, symbol_count := 0
           dependency_count := 0, dependent_count := 1, load_time := 0
           cpu_time := 0, memory_allocated := 200, function_calls := 0
           error_count := 0, behavior_score := 100, anomaly_count := 0
           ai_monitored := false, ref_count := 1, pool_index := 1 }]
      module_count := 2, next_module_id := 3
      module_pool_used := [true, true] ++ List.replicate 62 false }

/-! ## Claim C2 — module_load creates no sandbox

The spec's load pipeline step 6 ("Create sandbox") does not exist in
modules.c: `module_load` (modules.c:86-234) contains no call into the
sandboxing engine, and `modules_init` (modules.c:56) leaves
`sandboxing_enabled = false` ("Disabled for now").  A loaded module
therefore has NO sandbox unless `sandboxing_create_sandbox` is invoked
separately. -/

/-- A minimal valid module image (magic, version, bounded sections, no
flags), 600 bytes of which 572 are the header. -/
def wImage : ModuleImage :=
  { header :=
      { magic := MODULE_MAGIC, version := MODULE_VERSION, module_version := 1
        name := "hello_mod".toList, type := 0, priority := 0, flags := 0
        code_size := 16, data_size := 8, bss_size := 4
        entry_point := 0, exit_point := 0
        symbol_count := 0, symbol_table_offset := 0
        dependency_count := 0, dependency_table_offset := 0
        checksum := 0, signature := 0 }
    code := List.replicate 16 0
    data := List.replicate 8 0
    init_ret := 0 }

/-- A User-level sandbox for module 1, created from a fresh sandbox system. -/
def wSandboxC3 : SandboxSystem :=
  (sandboxing_create_sandbox sandboxing_init 1 SANDBOX_LEVEL_USER).1

def sandboxCtx_default : SandboxCtx :=
  { sandbox_id := 0, module_id := 0, security_level := 0, active := false
    capabilities := 0, denied_capabilities := 0, limits := []
    function_calls := 0, memory_allocations := 0, capability_checks := 0
    violations := 0, last_violation_id := 0 }

def wSbC3 : SandboxCtx :=
  (sandboxing_find_sandbox_by_module wSandboxC3 1).getD sandboxCtx_default

/-- The User-level sandbox for module 1 after five handled Capability
violations (per-sandbox counter = 5). -/
def wSandC4 : SandboxSystem :=
  (sandboxing_handle_violation
    ((sandboxing_handle_violation
      ((sandboxing_handle_violation
        ((sandboxing_handle_violation
          ((sandboxing_handle_violation wSandboxC3 1 VIOLATION_CAPABILITY []).1)
          1 VIOLATION_CAPABILITY []).1)
        1 VIOLATION_CAPABILITY []).1)
      1 VIOLATION_CAPABILITY []).1)
    1 VIOLATION_CAPABILITY []).1

def wSbC4 : SandboxCtx :=
  (sandboxing_find_sandbox_by_module wSandC4 1).getD sandboxCtx_default

/-- The kernel-wide state relevant to module loading.  `module_load`
(modules.c:86-234) reads and writes only the module system; the static
`sandbox_system` of sandboxing.c is not touched by any code in modules.c. -/
structure KernelState where
  modules : ModuleSystem
  sandbox : SandboxSystem
deriving DecidableEq, Repr

/-- `module_load` lifted to the kernel-wide state: the sandbox engine
passes through untouched because the load path never calls into it. -/
def kernel_module_load (ks : KernelState) (module_data : Option ModuleImage)
    (size : Nat) : KernelState × Nat :=
  let r := module_load ks.modules module_data size
  ({ modules := r.1, sandbox := ks.sandbox }, r.2)

def wKernel0 : KernelState :=
  { modules := modules_init, sandbox := sandboxing_init }

theorem mailboxInv_init (a : Actor) (h : MailboxInit a) :
    MailboxInv a.max_queue_size a := by
  rcases h with ⟨hq, hn⟩
  refine ⟨?_, ?_, rfl⟩ <;> simp [hq, hn]

theorem mailboxInv_step {cap : Nat} {a a' : Actor} (h : MailboxStep a a')
    (inv : MailboxInv cap a) : MailboxInv cap a' := by
  rcases inv with ⟨hsz, hle, hcap⟩
  cases h with
  | add b m hadd =>
      unfold actor_add_message at hadd
      split at hadd
      · exact absurd hadd (by simp)
      · rename_i hlt
        cases hadd
        refine ⟨by simp [hsz], ?_, hcap⟩
        have : a.queue_size < a.max_queue_size := Nat.lt_of_not_le hlt
        simp only [List.length_append, List.length_cons, List.length_nil]
        omega
  | recv =>
      unfold actor_receive
      cases hq : a.message_queue with
      | nil => exact ⟨hsz, hle, hcap⟩
      | cons m rest =>
          refine ⟨?_, ?_, hcap⟩
          · simp [hsz, hq]
          · simp only
            have : a.message_queue.length ≤ a.max_queue_size := hle
            rw [hq] at this
            simp at this ⊢
            omega
  | clear =>
      exact ⟨by simp [actor_clear_message_queue], by simp [actor_clear_message_queue], hcap⟩

theorem mailboxInv_reachable {a a' : Actor} (h : MailboxReachable a a')
    (inv : MailboxInv a.max_queue_size a) : MailboxInv a.max_queue_size a' := by
  induction h with
  | refl => exact inv
  | tail _ hstep ih => exact mailboxInv_step hstep ih

/-- Conservation of the queue along a trace: what has been delivered,
followed by what is still queued, is exactly the initial queue followed by
the successful enqueues, in order. -/
theorem runMailboxTrace_conserves (a : Actor) (ops : List MOp) :
    (runMailboxTrace a ops).delivered ++ (runMailboxTrace a ops).actor.message_queue
      = a.message_queue ++ (runMailboxTrace a ops).enqueued := by
  induction ops generalizing a with
  | nil => simp [runMailboxTrace]
  | cons op ops ih =>
      cases op with
      | send m =>
          simp only [runMailboxTrace]
          cases hadd : actor_add_message a m with
          | none => exact ih a
          | some a' =>
              simp only
              have hqueue : a'.message_queue = a.message_queue ++ [m] := by
                unfold actor_add_message at hadd
                split at hadd
                · exact absurd hadd (by simp)
                · cases hadd; rfl
              have := ih a'
              rw [this, hqueue]
              simp
      | recv =>
          simp only [runMailboxTrace]
          cases hq : a.message_queue with
          | nil =>
              have hrecv : actor_receive a = (none, a) := by
                unfold actor_receive; rw [hq]
              rw [hrecv]
              have h2 := ih a
              rw [hq] at h2
              simpa using h2
          | cons m rest =>
              have hrecv : actor_receive a = (some m,
                  { a with message_queue := rest,
                           queue_size := a.queue_size - 1,
                           messages_received := a.messages_received + 1 }) := by
                unfold actor_receive; rw [hq]
              rw [hrecv]
              have h2 := ih { a with message_queue := rest,
                                     queue_size := a.queue_size - 1,
                                     messages_received := a.messages_received + 1 }
              simp only [Option.toList_some, List.cons_append, List.nil_append] at h2 ⊢
              exact congrArg (List.cons m) h2

/-! ## Claim C1 — scheduler selection policy

The spec's policy (strict priority class, round-robin within class,
`last_scheduled` tie-break, kernel actor only as a last resort) is NOT what
scheduler.c implements: `scheduler_select_next_actor` (lines 536-546)
returns the head of the ready queue unconditionally ("Simple round-robin for
now / TODO: Implement priority-based scheduling"), and
`scheduler_add_to_ready_queue` (lines 584-602) inserts at the head. -/

/-- C1 (counterexample): in `cexState1`, a Ready CRITICAL actor (id 1) is in
the ready queue, yet selection returns the LOW-priority actor id 2 — the
most recently enqueued one — so selection does not pick from the highest
priority class.  In `cexState2`, the kernel actor (id 0) is selected even
though the ordinary Ready actor id 5 is in the queue. -/
theorem claim_C1_counterexample :
    scheduler_select_next_actor cexState1 = some 2 ∧
    actor_get cexState1 2 = some (mkActor 2 ACTOR_PRIORITY_LOW ACTOR_STATE_READY) ∧
    1 ∈ cexState1.ready_queue ∧
    actor_get cexState1 1 = some (mkActor 1 ACTOR_PRIORITY_CRITICAL ACTOR_STATE_READY) ∧
    ACTOR_PRIORITY_CRITICAL < ACTOR_PRIORITY_LOW ∧
    scheduler_select_next_actor cexState2 = some 0 ∧
    5 ∈ cexState2.ready_queue ∧
    actor_get cexState2 5 = some (mkActor 5 ACTOR_PRIORITY_NORMAL ACTOR_STATE_READY) := by
  decide

/-- C1 (amended): what the code actually does — after
`scheduler_add_to_ready_queue` of any Ready actor, selection returns exactly
that actor (head insertion + head selection: LIFO, ignoring priority class,
`last_scheduled` tick, and kernel-actor status), and selection on an empty
ready queue returns no actor. -/
theorem claim_C1_amended_select_head (s : SchedState) (actor : Actor)
    (h : actor.state = ACTOR_STATE_READY) :
    scheduler_select_next_actor (scheduler_add_to_ready_queue s actor)
        = some actor.actor_id ∧
    (s.ready_queue = [] → scheduler_select_next_actor s = none) := by
  constructor
  · unfold scheduler_add_to_ready_queue scheduler_select_next_actor
    simp [h]
  · intro hq
    unfold scheduler_select_next_actor
    rw [hq]
    rfl

theorem claim_C1_amended_select_head_witness :
    (mkActor 2 ACTOR_PRIORITY_LOW ACTOR_STATE_READY).state = ACTOR_STATE_READY ∧
    (scheduler_select_next_actor
        (scheduler_add_to_ready_queue cexState1
          (mkActor 2 ACTOR_PRIORITY_LOW ACTOR_STATE_READY))
        = some (mkActor 2 ACTOR_PRIORITY_LOW ACTOR_STATE_READY).actor_id ∧
      (cexState1.ready_queue = [] → scheduler_select_next_actor cexState1 = none)) :=
  ⟨by decide,
   claim_C1_amended_select_head cexState1
     (mkActor 2 ACTOR_PRIORITY_LOW ACTOR_STATE_READY) (by decide)⟩

/-! ## Claim C6 — mailbox length never exceeds capacity -/

/-- C6: in every state a mailbox can reach from its creation state (empty
queue), the queue length is bounded by the capacity; an `actor_add_message`
into a queue at capacity fails; `message_send_async` to an actor whose
mailbox is at capacity returns false; and `message_send_async` to an actor
whose mailbox is one below capacity returns true provided the message pool
still has a free slot. -/
theorem claim_C6_mailbox_bounded (a0 a : Actor) (m : Message)
    (s : SchedState) (recipient_id type : Nat) (payload : List Nat)
    (h0 : MailboxInit a0) (hr : MailboxReachable a0 a)
    (hinit : s.scheduler_initialized = true)
    (hget : actor_get s recipient_id = some a) :
    a.message_queue.length ≤ a.max_queue_size ∧
    (a.message_queue.length = a.max_queue_size → actor_add_message a m = none) ∧
    (a.message_queue.length = a.max_queue_size →
      (message_send_async s recipient_id type payload).2 = false) ∧
    (a.message_queue.length + 1 = a.max_queue_size →
      (message_allocate s.message_pool_used).isSome = true →
      (message_send_async s recipient_id type payload).2 = true) := by
  obtain ⟨hsz, hle, -⟩ := mailboxInv_reachable hr (mailboxInv_init a0 h0)
  have hfail : a.message_queue.length = a.max_queue_size →
      ∀ m' : Message, actor_add_message a m' = none := by
    intro hcap m'
    unfold actor_add_message
    rw [hsz, hcap]
    simp
  refine ⟨hle, fun hcap => hfail hcap m, fun hcap => ?_, fun hcap halloc => ?_⟩
  · unfold message_send_async
    rw [if_neg (by simp [hinit])]
    simp only [hget]
    cases halloc2 : message_allocate s.message_pool_used with
    | none => simp only [halloc2]
    | some p =>
        cases p with
        | mk idx pool => simp only [halloc2, hfail hcap]
  · unfold message_send_async
    rw [if_neg (by simp [hinit])]
    simp only [hget]
    cases hallocEq : message_allocate s.message_pool_used with
    | none => rw [hallocEq] at halloc; simp at halloc
    | some p =>
        cases p with
        | mk idx pool =>
            have hadd : ∀ m' : Message, actor_add_message a m' =
                some { a with message_queue := a.message_queue ++ [m'],
                              queue_size := a.queue_size + 1 } := by
              intro m'
              unfold actor_add_message
              rw [if_neg (by omega)]
            simp only [hallocEq, hadd]

theorem wBox_reach : MailboxReachable wBoxActor0 wBoxActor2 :=
  Relation.ReflTransGen.tail
    (Relation.ReflTransGen.single
      (MailboxStep.add wBoxActor0 wBoxActor1 (wMsg 1) (by decide)))
    (MailboxStep.add wBoxActor1 wBoxActor2 (wMsg 2) (by decide))

theorem claim_C6_mailbox_bounded_witness :
    (MailboxInit wBoxActor0 ∧ MailboxReachable wBoxActor0 wBoxActor2 ∧
      wSchedC6.scheduler_initialized = true ∧
      actor_get wSchedC6 9 = some wBoxActor2) ∧
    (wBoxActor2.message_queue.length ≤ wBoxActor2.max_queue_size ∧
      (wBoxActor2.message_queue.length = wBoxActor2.max_queue_size →
        actor_add_message wBoxActor2 (wMsg 3) = none) ∧
      (wBoxActor2.message_queue.length = wBoxActor2.max_queue_size →
        (message_send_async wSchedC6 9 MSG_TYPE_ASYNC [7]).2 = false) ∧
      (wBoxActor2.message_queue.length + 1 = wBoxActor2.max_queue_size →
        (message_allocate wSchedC6.message_pool_used).isSome = true →
        (message_send_async wSchedC6 9 MSG_TYPE_ASYNC [7]).2 = true)) :=
  ⟨⟨⟨rfl, rfl⟩, wBox_reach, rfl, by decide⟩,
   claim_C6_mailbox_bounded wBoxActor0 wBoxActor2 (wMsg 3) wSchedC6 9
     MSG_TYPE_ASYNC [7] ⟨rfl, rfl⟩ wBox_reach rfl (by decide)⟩

/-! ## Claim C7 — mailboxes are strictly FIFO -/

/-- C7: starting from an empty mailbox, for ANY sequence of sends (from any
senders, with any message priorities) and receives, the i-th message the
owner receives is exactly the i-th successfully enqueued message: delivery
order equals enqueue order, so an earlier successful send is always
delivered before a later one, and priority never reorders a mailbox. -/
theorem claim_C7_mailbox_fifo (a : Actor) (ops : List MOp)
    (hempty : a.message_queue = []) (i : Nat)
    (hi : i < (runMailboxTrace a ops).delivered.length) :
    (runMailboxTrace a ops).delivered[i]? = (runMailboxTrace a ops).enqueued[i]? := by
  have h := runMailboxTrace_conserves a ops
  rw [hempty, List.nil_append] at h
  rw [← h]
  exact (List.getElem?_append_left hi).symm

theorem claim_C7_mailbox_fifo_witness :
    (wBoxActor0.message_queue = [] ∧
      1 < (runMailboxTrace wBoxActor0 wOpsC7).delivered.length) ∧
    (runMailboxTrace wBoxActor0 wOpsC7).delivered[1]?
      = (runMailboxTrace wBoxActor0 wOpsC7).enqueued[1]? :=
  ⟨⟨rfl, by decide⟩, claim_C7_mailbox_fifo wBoxActor0 wOpsC7 rfl 1 (by decide)⟩

/-! ## Claim C5 — no System-kind bypass of the mailbox cap

`actor_add_message` (scheduler.c:708-735) checks only
`queue_size >= max_queue_size`; neither it nor `message_send_async`
(scheduler.c:376-450) inspects the message kind, so a `MSG_TYPE_SYSTEM`
message is rejected at capacity exactly like every other kind. -/

/-- C5 (counterexample): `wSchedC6` holds actor 9 with its mailbox at
capacity (2/2); sending it a message of kind `MSG_TYPE_SYSTEM` fails and
leaves the mailbox at 2 messages — the spec's one-slot System bypass does
not exist in the code. -/
theorem claim_C5_counterexample :
    (message_send_async wSchedC6 9 MSG_TYPE_SYSTEM [85]).2 = false ∧
    actor_get (message_send_async wSchedC6 9 MSG_TYPE_SYSTEM [85]).1 9
      = some wBoxActor2 ∧
    wBoxActor2.queue_size = wBoxActor2.max_queue_size := by
  decide

/-- C5 (amended): a send into a mailbox at capacity fails with MailboxFull
for ALL message kinds, `MSG_TYPE_SYSTEM` included, and the recipient's
record (in particular its queue) is unchanged; there is no one-slot cap
bypass for System messages. -/
theorem claim_C5_amended_full_rejects_all_kinds (s : SchedState)
    (recipient_id type : Nat) (payload : List Nat) (a : Actor)
    (hget : actor_get s recipient_id = some a)
    (hcap : a.queue_size ≥ a.max_queue_size) :
    (message_send_async s recipient_id type payload).2 = false ∧
    actor_get (message_send_async s recipient_id type payload).1 recipient_id
      = some a := by
  unfold message_send_async
  by_cases hinit : s.scheduler_initialized = false
  · rw [if_pos hinit]
    exact ⟨by simp, hget⟩
  · rw [if_neg hinit]
    simp only [hget]
    cases halloc : message_allocate s.message_pool_used with
    | none => exact ⟨by simp, hget⟩
    | some p =>
        cases p with
        | mk idx pool =>
            have hfail : ∀ m' : Message, actor_add_message a m' = none := by
              intro m'
              unfold actor_add_message
              rw [if_pos hcap]
            simp only [hfail]
            exact ⟨by simp, hget⟩

theorem claim_C5_amended_witness :
    (actor_get wSchedC6 9 = some wBoxActor2 ∧
      wBoxActor2.queue_size ≥ wBoxActor2.max_queue_size) ∧
    ((message_send_async wSchedC6 9 MSG_TYPE_SYSTEM [85]).2 = false ∧
      actor_get (message_send_async wSchedC6 9 MSG_TYPE_SYSTEM [85]).1 9
        = some wBoxActor2) :=
  ⟨⟨by decide, by decide⟩,
   claim_C5_amended_full_rejects_all_kinds wSchedC6 9 MSG_TYPE_SYSTEM [85]
     wBoxActor2 (by decide) (by decide)⟩

/-! ## Claim C8 — `message_wait` with timeout 0

The C code never reads `timeout_ms` ("TODO: Implement timeout handling",
scheduler.c:498): with an empty mailbox the caller is ALWAYS transitioned
to BLOCKED, removed from the ready queue, and the scheduler yields. -/

/-- Updating an id-preserving function through the table leaves the lookup
of the same id mapped by the function. -/
theorem updateActorList_find_self (l : List Actor) (actor_id : Nat)
    (f : Actor → Actor) (hf : ∀ a, (f a).actor_id = a.actor_id) :
    (updateActorList l actor_id f).find? (fun a => a.actor_id == actor_id)
      = (l.find? (fun a => a.actor_id == actor_id)).map f := by
  induction l with
  | nil => rfl
  | cons a rest ih =>
      unfold updateActorList
      by_cases h : a.actor_id = actor_id
      · rw [if_pos h]
        rw [List.find?_cons_of_pos _ (by simp [hf, h]),
            List.find?_cons_of_pos _ (by simp [h])]
        rfl
      · rw [if_neg h]
        rw [List.find?_cons_of_neg _ (by simp [h]),
            List.find?_cons_of_neg _ (by simp [h])]
        exact ih

theorem actor_get_updateActor_self (s : SchedState) (actor_id : Nat)
    (f : Actor → Actor) (hf : ∀ a, (f a).actor_id = a.actor_id) :
    actor_get (updateActor s actor_id f) actor_id
      = (actor_get s actor_id).map f := by
  unfold actor_get updateActor
  by_cases h : actor_id ≥ MAX_ACTORS
  · rw [if_pos h, if_pos h]
    rfl
  · rw [if_neg h, if_neg h]
    exact updateActorList_find_self s.actors actor_id f hf

/-- A scheduler yield taken while the current actor is Blocked and the ready
queue is empty changes only the statistics (nobody is re-enqueued, selection
returns no actor, no context switch happens). -/
theorem scheduler_yield_blocked_current (u : SchedState) (cid : Nat) (bc : Actor)
    (hcur : u.current_actor = some cid) (hget : actor_get u cid = some bc)
    (hstate : bc.state = ACTOR_STATE_BLOCKED) (hq : u.ready_queue = []) :
    ∃ st, scheduler_yield u = { u with statistics := st } := by
  have hnotrun : ¬(bc.state = ACTOR_STATE_RUNNING) := by
    rw [hstate]
    decide
  have hsched : ∃ st, scheduler_schedule u = { u with statistics := st } := by
    unfold scheduler_schedule
    by_cases hen : u.scheduler_enabled = false
    · rw [if_pos hen]
      exact ⟨u.statistics, rfl⟩
    · rw [if_neg hen]
      have hsel : scheduler_select_next_actor u = none := by
        unfold scheduler_select_next_actor
        rw [hq]
        rfl
      have hswitch : scheduler_context_switch u none = u := by
        unfold scheduler_context_switch
        rw [if_neg (by rw [hcur]; simp)]
        simp [hcur, hget, hnotrun]
      simp only [hsel]
      rw [if_pos (show ¬((none : Option Nat) = u.current_actor) from by
            rw [hcur]; simp)]
      rw [hswitch]
      exact ⟨_, rfl⟩
  unfold scheduler_yield
  by_cases hinit : u.scheduler_initialized = false
  · rw [if_pos hinit]
    exact ⟨u.statistics, rfl⟩
  · rw [if_neg hinit]
    simp only [hcur, hget]
    rw [if_neg hnotrun]
    rw [← hcur]
    exact hsched

theorem remove_from_ready_queue_not_mem (s : SchedState) (actor_id : Nat)
    (h : actor_id ∉ s.ready_queue) :
    scheduler_remove_from_ready_queue s actor_id
      = { s with ready_queue := [],
                 statistics := { s.statistics with
                     ready_actors := s.statistics.ready_actors - 1 } } := by
  unfold scheduler_remove_from_ready_queue
  simp [h]

/-- C8 (amended): `message_wait` ignores its timeout argument entirely: for
EVERY timeout value, including 0, a call on an empty mailbox transitions the
caller to Blocked, removes it from the ready queue (wiping the queue, per
the unlink code applied to an unlinked node), yields to the scheduler, and
returns no message — it does not return immediately. -/
theorem message_receive_empty (u : SchedState) (cid : Nat) (bc : Actor)
    (hcur : u.current_actor = some cid) (hget : actor_get u cid = some bc)
    (hempty : bc.message_queue = []) :
    message_receive u = (none, u) := by
  unfold message_receive
  simp only [hcur, hget, hempty]

theorem claim_C8_amended_wait_ignores_timeout (s : SchedState)
    (timeout_ms cid : Nat) (c : Actor)
    (hcur : s.current_actor = some cid) (hget : actor_get s cid = some c)
    (hempty : c.message_queue = []) (hnotq : cid ∉ s.ready_queue) :
    (message_wait s timeout_ms).1 = none ∧
    actor_get (message_wait s timeout_ms).2 cid
      = some { c with state := ACTOR_STATE_BLOCKED } ∧
    (message_wait s timeout_ms).2.ready_queue = [] := by
  have hrecv : message_receive s = (none, s) :=
    message_receive_empty s cid c hcur hget hempty
  have hbc : actor_get (updateActor s cid
        (fun a => { a with state := ACTOR_STATE_BLOCKED })) cid
      = some { c with state := ACTOR_STATE_BLOCKED } := by
    rw [actor_get_updateActor_self s cid
          (fun a => { a with state := ACTOR_STATE_BLOCKED }) (fun a => rfl), hget]
    rfl
  have hs3 := remove_from_ready_queue_not_mem
      (updateActor s cid (fun a => { a with state := ACTOR_STATE_BLOCKED })) cid hnotq
  have h3q : (scheduler_remove_from_ready_queue
        (updateActor s cid (fun a => { a with state := ACTOR_STATE_BLOCKED })) cid).ready_queue
      = [] := by
    rw [hs3]
  have h3cur : (scheduler_remove_from_ready_queue
        (updateActor s cid (fun a => { a with state := ACTOR_STATE_BLOCKED })) cid).current_actor
      = some cid := by
    rw [hs3]
    exact hcur
  have h3get : actor_get (scheduler_remove_from_ready_queue
        (updateActor s cid (fun a => { a with state := ACTOR_STATE_BLOCKED })) cid) cid
      = some { c with state := ACTOR_STATE_BLOCKED } := by
    rw [hs3]
    exact hbc
  obtain ⟨st, hyield⟩ := scheduler_yield_blocked_current
      (scheduler_remove_from_ready_queue
        (updateActor s cid (fun a => { a with state := ACTOR_STATE_BLOCKED })) cid)
      cid { c with state := ACTOR_STATE_BLOCKED } h3cur h3get rfl h3q
  have h4get : actor_get { scheduler_remove_from_ready_queue
        (updateActor s cid (fun a => { a with state := ACTOR_STATE_BLOCKED })) cid with
          statistics := st } cid
      = some { c with state := ACTOR_STATE_BLOCKED } := h3get
  have h4cur : ({ scheduler_remove_from_ready_queue
        (updateActor s cid (fun a => { a with state := ACTOR_STATE_BLOCKED })) cid with
          statistics := st } : SchedState).current_actor = some cid := h3cur
  have hfinal : message_receive { scheduler_remove_from_ready_queue
        (updateActor s cid (fun a => { a with state := ACTOR_STATE_BLOCKED })) cid with
          statistics := st }
      = (none, { scheduler_remove_from_ready_queue
          (updateActor s cid (fun a => { a with state := ACTOR_STATE_BLOCKED })) cid with
            statistics := st }) :=
    message_receive_empty _ cid { c with state := ACTOR_STATE_BLOCKED } h4cur h4get hempty
  unfold message_wait
  simp only [hcur, hrecv]
  rw [hyield, hfinal]
  exact ⟨rfl, h4get, h3q⟩

/-- C8 (counterexample): `message_wait` with timeout 0 on an empty mailbox
does NOT return immediately leaving the caller untouched: the caller
(actor 1) ends in state BLOCKED and a scheduling pass has run
(`context_switches` was incremented by the yield). -/
theorem claim_C8_counterexample :
    (message_wait wSchedC8 0).1 = none ∧
    (actor_get (message_wait wSchedC8 0).2 1).map Actor.state
      = some ACTOR_STATE_BLOCKED ∧
    (message_wait wSchedC8 0).2.statistics.context_switches
      = wSchedC8.statistics.context_switches + 1 := by
  decide

theorem claim_C8_amended_witness :
    (wSchedC8.current_actor = some 1 ∧
      actor_get wSchedC8 1
        = some (mkActor 1 ACTOR_PRIORITY_NORMAL ACTOR_STATE_RUNNING) ∧
      (mkActor 1 ACTOR_PRIORITY_NORMAL ACTOR_STATE_RUNNING).message_queue = [] ∧
      1 ∉ wSchedC8.ready_queue) ∧
    ((message_wait wSchedC8 0).1 = none ∧
      actor_get (message_wait wSchedC8 0).2 1
        = some { mkActor 1 ACTOR_PRIORITY_NORMAL ACTOR_STATE_RUNNING with
                   state := ACTOR_STATE_BLOCKED } ∧
      (message_wait wSchedC8 0).2.ready_queue = []) :=
  ⟨⟨rfl, by decide, rfl, by decide⟩,
   claim_C8_amended_wait_ignores_timeout wSchedC8 0 1
     (mkActor 1 ACTOR_PRIORITY_NORMAL ACTOR_STATE_RUNNING)
     rfl (by decide) rfl (by decide)⟩

/-! ## Claim C10 — enforcement entry points fail open -/

/-- C10: if the sandboxing system is uninitialized, or the module has no
sandbox, then `sandboxing_has_capability`, `sandboxing_check_resource_limit`,
`sandboxing_check_memory_access` and `sandboxing_check_function_call` all
permit the operation (return true) and leave the system state — in
particular the violation log — completely unchanged. -/
theorem claim_C10_fail_open (s : SandboxSystem)
    (module_id capability resource_type requested address size : Nat)
    (write : Bool) (function_name : List Char)
    (h : s.initialized = false ∨
         sandboxing_find_sandbox_by_module s module_id = none) :
    sandboxing_has_capability s module_id capability = (true, s) ∧
    sandboxing_check_resource_limit s module_id resource_type requested = (true, s) ∧
    sandboxing_check_memory_access s module_id address size write = (true, s) ∧
    sandboxing_check_function_call s module_id function_name = (true, s) := by
  unfold sandboxing_has_capability sandboxing_check_resource_limit
    sandboxing_check_memory_access sandboxing_check_function_call
  rcases h with h | h
  · simp [h]
  · by_cases hinit : s.initialized = false
    · simp [hinit]
    · simp [hinit, h]

theorem claim_C10_fail_open_witness :
    (({ sandboxing_init with initialized := false } : SandboxSystem).initialized = false ∨
      sandboxing_find_sandbox_by_module
        { sandboxing_init with initialized := false } 7 = none) ∧
    (sandboxing_has_capability { sandboxing_init with initialized := false } 7
        CAP_FILESYSTEM_WRITE
      = (true, { sandboxing_init with initialized := false }) ∧
     sandboxing_check_resource_limit { sandboxing_init with initialized := false } 7
        RESOURCE_MEMORY 4096
      = (true, { sandboxing_init with initialized := false }) ∧
     sandboxing_check_memory_access { sandboxing_init with initialized := false } 7
        4096 16 true
      = (true, { sandboxing_init with initialized := false }) ∧
     sandboxing_check_function_call { sandboxing_init with initialized := false } 7
        ("fs_write".toList)
      = (true, { sandboxing_init with initialized := false })) :=
  ⟨Or.inl rfl,
   claim_C10_fail_open { sandboxing_init with initialized := false } 7
     CAP_FILESYSTEM_WRITE RESOURCE_MEMORY 4096 4096 16 true
     ("fs_write".toList) (Or.inl rfl)⟩

/-! ## Claim C9 — unload refusal for Core modules and modules with dependents -/

/-- C9: `module_unload` on a module carrying the Core flag, or with a
non-empty dependents set, returns failure with the ENTIRE module system
unchanged (state, statistics/memory accounting, module list, pool).  In
particular such a module never enters `MODULE_STATE_UNLOADING`:
modules.c:263 is the only assignment of that state in the source, and it
sits after both guards. -/
theorem claim_C9_unload_refusal (ms : ModuleSystem) (module_id : Nat)
    (m : ModuleRec) (hget : module_get ms module_id = some m)
    (h : m.flags &&& MODULE_FLAG_CORE ≠ 0 ∨ m.dependent_count > 0) :
    module_unload ms module_id = (ms, false) := by
  unfold module_unload
  simp only [hget]
  by_cases hcore : m.flags &&& MODULE_FLAG_CORE ≠ 0
  · rw [if_pos hcore]
  · rcases h with hc | hdep
    · exact absurd hc hcore
    · rw [if_neg hcore, if_pos hdep]

theorem claim_C9_unload_refusal_witness :
    (module_get wModSys 1 = some ((wModSys.loaded_modules).get ⟨0, by decide⟩) ∧
      ((wModSys.loaded_modules).get ⟨0, by decide⟩).flags &&& MODULE_FLAG_CORE ≠ 0) ∧
    module_unload wModSys 1 = (wModSys, false) :=
  ⟨⟨by decide, by decide⟩,
   claim_C9_unload_refusal wModSys 1 ((wModSys.loaded_modules).get ⟨0, by decide⟩)
     (by decide) (Or.inl (by decide))⟩

/-- C2 (counterexample): from freshly initialized module and sandbox
systems, `module_load` of a valid image succeeds (module id 1, state
Loaded), yet the sandbox system — untouched by the load — has no sandbox
bound to module 1: the claimed invariant fails right after a successful
load. -/
theorem claim_C2_counterexample :
    (module_load modules_init (some wImage) 600).2 = 1 ∧
    (module_get (module_load modules_init (some wImage) 600).1 1).map ModuleRec.state
      = some MODULE_STATE_LOADED ∧
    sandboxing_find_sandbox_by_module sandboxing_init 1 = none := by
  decide

/-! ## Generic list lemmas used by the sandbox proofs -/

theorem find_append_of_none {α : Type} (p : α → Bool) (l : List α) (x : α)
    (h : l.find? p = none) (hx : p x = true) : (l ++ [x]).find? p = some x := by
  induction l with
  | nil => simp [List.find?, hx]
  | cons a rest ih =>
      by_cases ha : p a = true
      · rw [List.find?_cons_of_pos _ ha] at h
        cases h
      · rw [List.find?_cons_of_neg _ ha] at h
        rw [List.cons_append, List.find?_cons_of_neg _ ha]
        exact ih h

theorem find_append_singleton_neg {α : Type} (p : α → Bool) (l : List α) (x : α)
    (hx : p x = false) : (l ++ [x]).find? p = l.find? p := by
  induction l with
  | nil => simp [List.find?, hx]
  | cons a rest ih =>
      by_cases ha : p a = true
      · rw [List.cons_append, List.find?_cons_of_pos _ ha,
            List.find?_cons_of_pos _ ha]
      · rw [List.cons_append, List.find?_cons_of_neg _ ha,
            List.find?_cons_of_neg _ ha]
        exact ih

/-! ## Lookup lemmas for the sandbox-state operations -/

theorem updateSandboxList_find_self (l : List SandboxCtx) (module_id : Nat)
    (f : SandboxCtx → SandboxCtx)
    (hf : ∀ sb, sbMatch module_id (f sb) = sbMatch module_id sb) :
    (updateSandboxList l module_id f).find? (sbMatch module_id)
      = (l.find? (sbMatch module_id)).map f := by
  induction l with
  | nil => rfl
  | cons sb rest ih =>
      unfold updateSandboxList
      by_cases h : sbMatch module_id sb = true
      · rw [if_pos h]
        rw [List.find?_cons_of_pos _ (by rw [hf]; exact h),
            List.find?_cons_of_pos _ h]
        rfl
      · rw [if_neg h]
        rw [List.find?_cons_of_neg _ (by simpa using h),
            List.find?_cons_of_neg _ (by simpa using h)]
        exact ih

theorem sandboxing_find_updateSandbox (s : SandboxSystem) (module_id : Nat)
    (f : SandboxCtx → SandboxCtx)
    (hf : ∀ sb, sbMatch module_id (f sb) = sbMatch module_id sb) :
    sandboxing_find_sandbox_by_module (updateSandbox s module_id f) module_id
      = (sandboxing_find_sandbox_by_module s module_id).map f := by
  unfold sandboxing_find_sandbox_by_module updateSandbox
  by_cases h : s.initialized = false
  · rw [if_pos h, if_pos h]
    rfl
  · rw [if_neg h, if_neg h]
    exact updateSandboxList_find_self s.sandboxes module_id f hf

theorem sandboxing_find_some_init {s : SandboxSystem} {module_id : Nat}
    {sb : SandboxCtx}
    (hfind : sandboxing_find_sandbox_by_module s module_id = some sb) :
    ¬(s.initialized = false) := by
  intro h
  unfold sandboxing_find_sandbox_by_module at hfind
  rw [if_pos h] at hfind
  cases hfind

/-! ## Lookup lemmas for resource-limit lists -/

theorem find_applyLimit_self (limits : List ResourceLimit) (rt lim : Nat) :
    (applyLimit limits rt lim).find? (fun l => l.resource_type == rt)
      = (limits.find? (fun l => l.resource_type == rt)).map
          (fun l => { l with limit := lim, enforce := true }) := by
  induction limits with
  | nil => rfl
  | cons l rest ih =>
      unfold applyLimit
      by_cases h : l.resource_type = rt
      · rw [if_pos h]
        rw [List.find?_cons_of_pos _ (by simp [h]),
            List.find?_cons_of_pos _ (by simp [h])]
        rfl
      · rw [if_neg h]
        rw [List.find?_cons_of_neg _ (by simp [h]),
            List.find?_cons_of_neg _ (by simp [h])]
        exact ih

theorem find_applyLimit_other (limits : List ResourceLimit) (rt lim rt₂ : Nat)
    (hne : rt₂ ≠ rt) :
    (applyLimit limits rt lim).find? (fun l => l.resource_type == rt₂)
      = limits.find? (fun l => l.resource_type == rt₂) := by
  induction limits with
  | nil => rfl
  | cons l rest ih =>
      unfold applyLimit
      by_cases h : l.resource_type = rt
      · rw [if_pos h]
        rw [List.find?_cons_of_neg _ (by simp [h, hne.symm]),
            List.find?_cons_of_neg _ (by simp [h]; omega)]
      · rw [if_neg h]
        by_cases h2 : l.resource_type = rt₂
        · rw [List.find?_cons_of_pos _ (by simp [h2]),
              List.find?_cons_of_pos _ (by simp [h2])]
        · rw [List.find?_cons_of_neg _ (by simp [h2]),
              List.find?_cons_of_neg _ (by simp [h2])]
          exact ih

theorem find_applyUsage_self (limits : List ResourceLimit) (rt : Nat) (delta : Int) :
    (applyUsage limits rt delta).find? (fun l => l.resource_type == rt)
      = (limits.find? (fun l => l.resource_type == rt)).map
          (fun l => bumpUsage l delta) := by
  induction limits with
  | nil => rfl
  | cons l rest ih =>
      unfold applyUsage
      by_cases h : l.resource_type = rt
      · rw [if_pos h]
        rw [List.find?_cons_of_pos _ (by simp [bumpUsage, h]),
            List.find?_cons_of_pos _ (by simp [h])]
        rfl
      · rw [if_neg h]
        rw [List.find?_cons_of_neg _ (by simp [h]),
            List.find?_cons_of_neg _ (by simp [h])]
        exact ih

/-! ## Shape of `sandboxing_set_resource_limit` -/

/-- Every call to `sandboxing_set_resource_limit` either fails leaving the
state unchanged, or rewrites the found sandbox in place with a function that
preserves its identity (match predicate, ids, level, capability masks) and
every limit record for OTHER resource types. -/
theorem set_resource_limit_shape (s : SandboxSystem) (module_id rt lim : Nat) :
    (sandboxing_set_resource_limit s module_id rt lim).1 = s ∨
    ∃ f : SandboxCtx → SandboxCtx,
      (sandboxing_set_resource_limit s module_id rt lim).1
          = updateSandbox s module_id f ∧
      (∀ sb, sbMatch module_id (f sb) = sbMatch module_id sb) ∧
      (∀ sb, (f sb).security_level = sb.security_level) ∧
      (∀ sb, (f sb).capabilities = sb.capabilities) ∧
      (∀ sb, (f sb).module_id = sb.module_id) ∧
      (∀ sb, (f sb).sandbox_id = sb.sandbox_id) ∧
      (∀ sb rt₂, rt₂ ≠ rt →
        (f sb).limits.find? (fun l => l.resource_type == rt₂)
          = sb.limits.find? (fun l => l.resource_type == rt₂)) := by
  unfold sandboxing_set_resource_limit
  by_cases hinit : s.initialized = false
  · rw [if_pos hinit]
    exact Or.inl rfl
  · rw [if_neg hinit]
    cases hfind : sandboxing_find_sandbox_by_module s module_id with
    | none => exact Or.inl rfl
    | some sb =>
        simp only
        by_cases hrt : rt ≥ MAX_RESOURCE_LIMITS
        · rw [if_pos hrt]
          exact Or.inl rfl
        · rw [if_neg hrt]
          by_cases hany : sb.limits.any (fun l => l.resource_type == rt) = true
          · rw [if_pos hany]
            refine Or.inr ⟨_, rfl, fun sb => rfl, fun sb => rfl, fun sb => rfl,
              fun sb => rfl, fun sb => rfl, fun sb rt₂ hne => ?_⟩
            exact find_applyLimit_other sb.limits rt lim rt₂ hne
          · rw [if_neg hany]
            by_cases hlen : sb.limits.length < MAX_RESOURCE_LIMITS
            · rw [if_pos hlen]
              refine Or.inr ⟨_, rfl, fun sb => rfl, fun sb => rfl, fun sb => rfl,
                fun sb => rfl, fun sb => rfl, fun sb rt₂ hne => ?_⟩
              exact find_append_singleton_neg _ sb.limits _ (by simp; omega)
            · rw [if_neg hlen]
              exact Or.inl rfl

/-- All the system-level fields of the state that
`sandboxing_set_resource_limit` never writes. -/
theorem set_resource_limit_fields (s : SandboxSystem) (module_id rt lim : Nat) :
    (sandboxing_set_resource_limit s module_id rt lim).1.quarantined_modules
        = s.quarantined_modules ∧
    (sandboxing_set_resource_limit s module_id rt lim).1.violation_log
        = s.violation_log ∧
    (sandboxing_set_resource_limit s module_id rt lim).1.violation_count
        = s.violation_count ∧
    (sandboxing_set_resource_limit s module_id rt lim).1.total_violations
        = s.total_violations ∧
    (sandboxing_set_resource_limit s module_id rt lim).1.initialized
        = s.initialized ∧
    (sandboxing_set_resource_limit s module_id rt lim).1.default_capabilities
        = s.default_capabilities := by
  rcases set_resource_limit_shape s module_id rt lim with heq | ⟨f, heq, -⟩ <;>
    rw [heq] <;> exact ⟨rfl, rfl, rfl, rfl, rfl, rfl⟩

/-- A successful limit set: when the sandbox has a record for the resource
or room for one, the call installs `limit = lim, enforce = true` for that
resource, preserving the sandbox's level and capability masks. -/
theorem set_resource_limit_success (s : SandboxSystem) (module_id rt lim : Nat)
    (sb : SandboxCtx)
    (hfind : sandboxing_find_sandbox_by_module s module_id = some sb)
    (hrt : rt < MAX_RESOURCE_LIMITS)
    (hroom : sb.limits.any (fun l => l.resource_type == rt) = true ∨
             sb.limits.length < MAX_RESOURCE_LIMITS) :
    ∃ sb', sandboxing_find_sandbox_by_module
        (sandboxing_set_resource_limit s module_id rt lim).1 module_id = some sb' ∧
      sb'.security_level = sb.security_level ∧
      sb'.capabilities = sb.capabilities ∧
      ∃ l, sb'.limits.find? (fun l => l.resource_type == rt) = some l ∧
           l.limit = lim ∧ l.enforce = true := by
  have hinit := sandboxing_find_some_init hfind
  unfold sandboxing_set_resource_limit
  rw [if_neg hinit]
  simp only [hfind]
  rw [if_neg (by omega)]
  cases hfq : sb.limits.find? (fun l => l.resource_type == rt) with
  | some l0 =>
      have hany : sb.limits.any (fun l => l.resource_type == rt) = true := by
        rw [List.any_eq_true]
        refine ⟨l0, List.mem_of_find?_eq_some hfq, ?_⟩
        simpa using List.find?_some hfq
      rw [if_pos hany]
      have hupd := sandboxing_find_updateSandbox s module_id
        (fun sb => { sb with limits := applyLimit sb.limits rt lim })
        (fun sb => rfl)
      rw [hupd, hfind]
      refine ⟨_, rfl, rfl, rfl, ?_⟩
      rw [find_applyLimit_self, hfq]
      exact ⟨_, rfl, rfl, rfl⟩
  | none =>
      have hany : ¬(sb.limits.any (fun l => l.resource_type == rt) = true) := by
        rw [List.any_eq_true]
        rintro ⟨x, hmem, hx⟩
        rw [List.find?_eq_none] at hfq
        exact absurd hx (by simpa using hfq x hmem)
      rw [if_neg hany]
      rcases hroom with hr | hlen
      · exact absurd hr hany
      · rw [if_pos hlen]
        have hupd := sandboxing_find_updateSandbox s module_id
          (fun sb => { sb with limits := sb.limits ++
            [{ resource_type := rt, limit := lim
               current_usage := 0, peak_usage := 0, enforce := true }] })
          (fun sb => rfl)
        rw [hupd, hfind]
        refine ⟨_, rfl, rfl, rfl, ?_⟩
        rw [find_append_of_none _ _ _ hfq (by simp)]
        exact ⟨_, rfl, rfl, rfl⟩

/-- A limit set for one resource preserves the lookup of any other
resource's record as well as the sandbox's identity and masks. -/
theorem set_resource_limit_preserves (s : SandboxSystem)
    (module_id rt lim rt₂ : Nat) (hne : rt₂ ≠ rt) (sb : SandboxCtx)
    (hfind : sandboxing_find_sandbox_by_module s module_id = some sb) :
    ∃ sb', sandboxing_find_sandbox_by_module
        (sandboxing_set_resource_limit s module_id rt lim).1 module_id = some sb' ∧
      sb'.security_level = sb.security_level ∧
      sb'.capabilities = sb.capabilities ∧
      sb'.module_id = sb.module_id ∧
      sb'.sandbox_id = sb.sandbox_id ∧
      sb'.limits.find? (fun l => l.resource_type == rt₂)
        = sb.limits.find? (fun l => l.resource_type == rt₂) := by
  rcases set_resource_limit_shape s module_id rt lim with heq |
    ⟨f, heq, hmatch, hlvl, hcaps, hmid, hsid, hfo⟩
  · rw [heq]
    exact ⟨sb, hfind, rfl, rfl, rfl, rfl, rfl⟩
  · rw [heq, sandboxing_find_updateSandbox s module_id f hmatch, hfind]
    exact ⟨f sb, rfl, hlvl sb, hcaps sb, hmid sb, hsid sb, hfo sb rt₂ hne⟩

/-! ## Lemmas about `sandboxing_log_violation` -/

theorem find_log_violation (s : SandboxSystem) (module_id vtype cap : Nat)
    (d : List Char) (mid2 : Nat) :
    sandboxing_find_sandbox_by_module
        (sandboxing_log_violation s module_id vtype cap d) mid2
      = sandboxing_find_sandbox_by_module s mid2 := by
  unfold sandboxing_log_violation
  split <;> rfl

theorem log_violation_fields (s : SandboxSystem) (module_id vtype cap : Nat)
    (d : List Char) :
    (sandboxing_log_violation s module_id vtype cap d).quarantined_modules
        = s.quarantined_modules ∧
    (sandboxing_log_violation s module_id vtype cap d).default_capabilities
        = s.default_capabilities ∧
    (sandboxing_log_violation s module_id vtype cap d).strict_enforcement
        = s.strict_enforcement := by
  unfold sandboxing_log_violation
  split <;> exact ⟨rfl, rfl, rfl⟩

/-! ## Claim C4 — quarantine escalation on the 6th handled violation -/

/-- What `sandboxing_quarantine_module` does to the module's sandbox: level
Quarantine, the Quarantine default capability mask, a Memory limit of
256 KiB installed (the sandbox either already has a Memory record or has
room for one), and the system quarantine counter incremented. -/
theorem quarantine_module_find (s : SandboxSystem) (module_id : Nat)
    (sb : SandboxCtx)
    (hfind : sandboxing_find_sandbox_by_module s module_id = some sb)
    (hroom : sb.limits.any (fun l => l.resource_type == RESOURCE_MEMORY) = true ∨
             sb.limits.length < MAX_RESOURCE_LIMITS) :
    ∃ sbq, sandboxing_find_sandbox_by_module
        (sandboxing_quarantine_module s module_id).1 module_id = some sbq ∧
      sbq.security_level = SANDBOX_LEVEL_QUARANTINE ∧
      sbq.capabilities = s.default_capabilities.getD SANDBOX_LEVEL_QUARANTINE 0 ∧
      (∃ l, sbq.limits.find? (fun l => l.resource_type == RESOURCE_MEMORY)
              = some l ∧ l.limit = 256 * 1024) ∧
      (sandboxing_quarantine_module s module_id).1.quarantined_modules
        = s.quarantined_modules + 1 := by
  have hinit := sandboxing_find_some_init hfind
  unfold sandboxing_quarantine_module
  rw [if_neg hinit]
  simp only [hfind]
  set s1 := updateSandbox s module_id (fun sb =>
    { sb with security_level := SANDBOX_LEVEL_QUARANTINE
              capabilities := s.default_capabilities.getD SANDBOX_LEVEL_QUARANTINE 0 })
    with hs1
  set s2 := (sandboxing_set_resource_limit s1 module_id RESOURCE_MEMORY
    (256 * 1024)).1 with hs2
  set s3 := (sandboxing_set_resource_limit s2 module_id RESOURCE_CHILD_ACTORS 0).1
    with hs3
  set s4 := (sandboxing_set_resource_limit s3 module_id RESOURCE_HEAP_ALLOCS 1).1
    with hs4
  set s5 := (sandboxing_set_resource_limit s4 module_id RESOURCE_MODULE_CALLS 10).1
    with hs5
  have hfind1 : sandboxing_find_sandbox_by_module s1 module_id
      = some { sb with security_level := SANDBOX_LEVEL_QUARANTINE
                       capabilities := s.default_capabilities.getD SANDBOX_LEVEL_QUARANTINE 0 } := by
    rw [hs1, sandboxing_find_updateSandbox s module_id (fun sb =>
      { sb with security_level := SANDBOX_LEVEL_QUARANTINE
                capabilities := s.default_capabilities.getD SANDBOX_LEVEL_QUARANTINE 0 })
      (fun sb => rfl), hfind]
    rfl
  obtain ⟨sb2, hfind2, hlvl2, hcaps2, l2, hfl2, hlim2, henf2⟩ :=
    set_resource_limit_success s1 module_id RESOURCE_MEMORY (256 * 1024) _
      hfind1 (by decide) hroom
  rw [← hs2] at hfind2
  obtain ⟨sb3, hfind3, hlvl3, hcaps3, -, -, hmem3⟩ :=
    set_resource_limit_preserves s2 module_id RESOURCE_CHILD_ACTORS 0
      RESOURCE_MEMORY (by decide) sb2 hfind2
  rw [← hs3] at hfind3
  obtain ⟨sb4, hfind4, hlvl4, hcaps4, -, -, hmem4⟩ :=
    set_resource_limit_preserves s3 module_id RESOURCE_HEAP_ALLOCS 1
      RESOURCE_MEMORY (by decide) sb3 hfind3
  rw [← hs4] at hfind4
  obtain ⟨sb5, hfind5, hlvl5, hcaps5, -, -, hmem5⟩ :=
    set_resource_limit_preserves s4 module_id RESOURCE_MODULE_CALLS 10
      RESOURCE_MEMORY (by decide) sb4 hfind4
  rw [← hs5] at hfind5
  refine ⟨sb5, hfind5, ?_, ?_, ⟨l2, ?_, hlim2⟩, ?_⟩
  · rw [hlvl5, hlvl4, hlvl3, hlvl2]
  · rw [hcaps5, hcaps4, hcaps3, hcaps2]
  · rw [hmem5, hmem4, hmem3, hfl2]
  · show s5.quarantined_modules + 1 = s.quarantined_modules + 1
    rw [hs5, (set_resource_limit_fields s4 module_id RESOURCE_MODULE_CALLS 10).1,
        hs4, (set_resource_limit_fields s3 module_id RESOURCE_HEAP_ALLOCS 1).1,
        hs3, (set_resource_limit_fields s2 module_id RESOURCE_CHILD_ACTORS 0).1,
        hs2, (set_resource_limit_fields s1 module_id RESOURCE_MEMORY (256 * 1024)).1,
        hs1]
    rfl

/-- C4: with strict enforcement on, the 6th handled Capability violation of
a sandboxed module (per-sandbox counter at 5, about to cross the threshold)
quarantines it: security level becomes Quarantine, the granted capability
mask collapses to ModuleQuery (the Quarantine default), the Memory limit is
set to 256 KiB ≤ 512 KiB, and the system's quarantined-module count
increases by one.  The side conditions are reachability invariants: the
defaults table still holds its `sandboxing_init` value (nothing in
sandboxing.c ever writes it after init), and the sandbox has a Memory
record or room for one. -/
theorem claim_C4_quarantine_on_sixth (s : SandboxSystem) (module_id : Nat)
    (sb : SandboxCtx) (description : List Char)
    (hfind : sandboxing_find_sandbox_by_module s module_id = some sb)
    (hviol : sb.violations = 5)
    (hstrict : s.strict_enforcement = true)
    (hroom : sb.limits.any (fun l => l.resource_type == RESOURCE_MEMORY) = true ∨
             sb.limits.length < MAX_RESOURCE_LIMITS)
    (hdef : s.default_capabilities.getD SANDBOX_LEVEL_QUARANTINE 0
              = CAP_MODULE_QUERY) :
    ∃ sbq, sandboxing_find_sandbox_by_module
        (sandboxing_handle_violation s module_id VIOLATION_CAPABILITY
          description).1 module_id = some sbq ∧
      sbq.security_level = SANDBOX_LEVEL_QUARANTINE ∧
      sbq.capabilities = CAP_MODULE_QUERY ∧
      (∃ l, sbq.limits.find? (fun l => l.resource_type == RESOURCE_MEMORY)
              = some l ∧ l.limit ≤ 512 * 1024) ∧
      (sandboxing_handle_violation s module_id VIOLATION_CAPABILITY
          description).1.quarantined_modules = s.quarantined_modules + 1 := by
  have hinit := sandboxing_find_some_init hfind
  unfold sandboxing_handle_violation
  rw [if_neg hinit]
  simp only [hfind]
  set s1 := updateSandbox s module_id
    (fun sb => { sb with violations := sb.violations + 1 }) with hs1
  set s2 := sandboxing_log_violation s1 module_id VIOLATION_CAPABILITY 0
    description with hs2
  have hfind1 : sandboxing_find_sandbox_by_module s1 module_id
      = some { sb with violations := sb.violations + 1 } := by
    rw [hs1, sandboxing_find_updateSandbox s module_id
      (fun sb => { sb with violations := sb.violations + 1 }) (fun sb => rfl),
      hfind]
    rfl
  have hfind2 : sandboxing_find_sandbox_by_module s2 module_id
      = some { sb with violations := sb.violations + 1 } := by
    rw [hs2, find_log_violation]
    exact hfind1
  rw [if_pos hstrict]
  rw [if_pos (show (True ∨ VIOLATION_CAPABILITY = VIOLATION_EXECUTION) from
        Or.inl trivial)]
  simp only [hfind2]
  rw [if_pos (show ({ sb with violations := sb.violations + 1 } :
        SandboxCtx).violations > 5 from by
      show sb.violations + 1 > 5
      omega)]
  obtain ⟨sbq, hfindq, hlvlq, hcapsq, ⟨l, hlq, hlimq⟩, hcountq⟩ :=
    quarantine_module_find s2 module_id
      { sb with violations := sb.violations + 1 } hfind2 hroom
  have hdef2 : s2.default_capabilities = s.default_capabilities := by
    rw [hs2,
      (log_violation_fields s1 module_id VIOLATION_CAPABILITY 0 description).2.1,
      hs1]
    rfl
  have hq2 : s2.quarantined_modules = s.quarantined_modules := by
    rw [hs2,
      (log_violation_fields s1 module_id VIOLATION_CAPABILITY 0 description).1,
      hs1]
    rfl
  refine ⟨sbq, hfindq, hlvlq, ?_, ⟨l, hlq, by rw [hlimq]; norm_num⟩, ?_⟩
  · rw [hcapsq, hdef2, hdef]
  · rw [hcountq, hq2]

/-- C3 (counterexample): module 1 is sandboxed at User level —
`CAP_FILESYSTEM_WRITE` is NOT in its granted mask — yet
`sandboxing_check_function_call("fs_write")` PERMITS the call (returns
true) and appends NO violation-log entry: the function-call check consults
only the built-in deny-list and the ModuleCalls limit, never the capability
mask, so the claimed Capability denial does not happen. -/
theorem claim_C3_counterexample :
    (sandboxing_find_sandbox_by_module wSandboxC3 1).map
        SandboxCtx.security_level = some SANDBOX_LEVEL_USER ∧
    (sandboxing_find_sandbox_by_module wSandboxC3 1).map
        (fun sb => sb.capabilities &&& CAP_FILESYSTEM_WRITE) = some 0 ∧
    (sandboxing_check_function_call wSandboxC3 1 ("fs_write".toList)).1 = true ∧
    (sandboxing_check_function_call wSandboxC3 1
        ("fs_write".toList)).2.violation_log = wSandboxC3.violation_log ∧
    (sandboxing_check_function_call wSandboxC3 1
        ("fs_write".toList)).2.total_violations = wSandboxC3.total_violations := by
  decide

/-- C3 (amended): for ANY sandboxed module whose ModuleCalls budget is not
exhausted (first matching limit record unenforced or with room for one more
call), `sandboxing_check_function_call("fs_write")` returns true — the call
is permitted even when the sandbox lacks `CAP_FILESYSTEM_WRITE` — no
violation-log entry is appended, and the sandbox's security level (and the
module's lifecycle state, which this function never touches) is unchanged. -/
theorem claim_C3_amended_fs_write_permitted (s : SandboxSystem)
    (module_id : Nat) (sb : SandboxCtx)
    (hfind : sandboxing_find_sandbox_by_module s module_id = some sb)
    (hlim : ∀ l, sb.limits.find?
        (fun l => l.resource_type == RESOURCE_MODULE_CALLS) = some l →
        l.enforce = false ∨ l.current_usage + 1 ≤ l.limit) :
    (sandboxing_check_function_call s module_id ("fs_write".toList)).1 = true ∧
    (sandboxing_check_function_call s module_id
        ("fs_write".toList)).2.violation_log = s.violation_log ∧
    (sandboxing_check_function_call s module_id
        ("fs_write".toList)).2.violation_count = s.violation_count ∧
    (sandboxing_check_function_call s module_id
        ("fs_write".toList)).2.total_violations = s.total_violations ∧
    (sandboxing_find_sandbox_by_module
        (sandboxing_check_function_call s module_id ("fs_write".toList)).2
        module_id).map SandboxCtx.security_level = some sb.security_level := by
  have hinit := sandboxing_find_some_init hfind
  unfold sandboxing_check_function_call
  rw [if_neg hinit]
  simp only [hfind]
  set s1 := updateSandbox s module_id
    (fun sb => { sb with function_calls := sb.function_calls + 1 }) with hs1
  have hfind1 : sandboxing_find_sandbox_by_module s1 module_id
      = some { sb with function_calls := sb.function_calls + 1 } := by
    rw [hs1, sandboxing_find_updateSandbox s module_id
      (fun sb => { sb with function_calls := sb.function_calls + 1 })
      (fun sb => rfl), hfind]
    rfl
  have hinit1 : ¬(s1.initialized = false) := hinit
  cases hfq : sb.limits.find?
      (fun l => l.resource_type == RESOURCE_MODULE_CALLS) with
  | none =>
      have hanyN : ∀ x ∈ sb.limits,
          ¬((fun l => l.resource_type == RESOURCE_MODULE_CALLS) x = true) :=
        List.find?_eq_none.mp hfq
      have h2 : (sandboxing_update_resource_usage s1 module_id
          RESOURCE_MODULE_CALLS 1).1 = s1 := by
        unfold sandboxing_update_resource_usage
        rw [if_neg hinit1]
        simp only [hfind1]
        rw [if_neg (by
          simp only [List.any_eq_true]
          rintro ⟨x, hx, hpx⟩
          exact hanyN x hx hpx)]
      have h3 : sandboxing_check_resource_limit s1 module_id
          RESOURCE_MODULE_CALLS 0 = (true, s1) := by
        unfold sandboxing_check_resource_limit
        rw [if_neg hinit1]
        simp only [hfind1, hfq]
      rw [h2, h3]
      refine ⟨rfl, rfl, rfl, rfl, ?_⟩
      show (sandboxing_find_sandbox_by_module s1 module_id).map
        SandboxCtx.security_level = some sb.security_level
      rw [hfind1]
      rfl
  | some l6 =>
      have hany : sb.limits.any
          (fun l => l.resource_type == RESOURCE_MODULE_CALLS) = true := by
        rw [List.any_eq_true]
        refine ⟨l6, List.mem_of_find?_eq_some hfq, ?_⟩
        simpa using List.find?_some hfq
      have h2 : (sandboxing_update_resource_usage s1 module_id
          RESOURCE_MODULE_CALLS 1).1
          = updateSandbox s1 module_id (fun sb =>
              { sb with limits := applyUsage sb.limits RESOURCE_MODULE_CALLS 1 }) := by
        unfold sandboxing_update_resource_usage
        rw [if_neg hinit1]
        simp only [hfind1]
        rw [if_pos hany]
      set s2 := updateSandbox s1 module_id (fun sb =>
        { sb with limits := applyUsage sb.limits RESOURCE_MODULE_CALLS 1 })
        with hs2
      have hfind2 : sandboxing_find_sandbox_by_module s2 module_id
          = some { sb with function_calls := sb.function_calls + 1
                           limits := applyUsage sb.limits RESOURCE_MODULE_CALLS 1 } := by
        rw [hs2, sandboxing_find_updateSandbox s1 module_id (fun sb =>
          { sb with limits := applyUsage sb.limits RESOURCE_MODULE_CALLS 1 })
          (fun sb => rfl), hfind1]
        rfl
      have hbump : (applyUsage sb.limits RESOURCE_MODULE_CALLS 1).find?
          (fun l => l.resource_type == RESOURCE_MODULE_CALLS)
          = some (bumpUsage l6 1) := by
        rw [find_applyUsage_self, hfq]
        rfl
      have husage : (bumpUsage l6 1).current_usage = l6.current_usage + 1 := by
        unfold bumpUsage
        rw [if_neg (by simp)]
        show ((l6.current_usage : Int) + 1).toNat = l6.current_usage + 1
        omega
      have hinit2 : ¬(s2.initialized = false) := hinit
      have h3 : sandboxing_check_resource_limit s2 module_id
          RESOURCE_MODULE_CALLS 0 = (true, s2) := by
        unfold sandboxing_check_resource_limit
        rw [if_neg hinit2]
        simp only [hfind2, hbump]
        by_cases henf : l6.enforce = false
        · rw [if_pos (show (bumpUsage l6 1).enforce = false from henf)]
        · rw [if_neg (show ¬((bumpUsage l6 1).enforce = false) from henf)]
          rcases hlim l6 hfq with h | h
          · exact absurd h henf
          · rw [if_neg (by
              show ¬((bumpUsage l6 1).current_usage + 0 > (bumpUsage l6 1).limit)
              have hl : (bumpUsage l6 1).limit = l6.limit := rfl
              rw [husage, hl]
              omega)]
      rw [h2, h3]
      refine ⟨rfl, rfl, rfl, rfl, ?_⟩
      show (sandboxing_find_sandbox_by_module s2 module_id).map
        SandboxCtx.security_level = some sb.security_level
      rw [hfind2]
      rfl

theorem claim_C3_amended_witness :
    (sandboxing_find_sandbox_by_module wSandboxC3 1 = some wSbC3) ∧
    ((sandboxing_check_function_call wSandboxC3 1 ("fs_write".toList)).1 = true ∧
      (sandboxing_check_function_call wSandboxC3 1
          ("fs_write".toList)).2.violation_log = wSandboxC3.violation_log ∧
      (sandboxing_check_function_call wSandboxC3 1
          ("fs_write".toList)).2.violation_count = wSandboxC3.violation_count ∧
      (sandboxing_check_function_call wSandboxC3 1
          ("fs_write".toList)).2.total_violations = wSandboxC3.total_violations ∧
      (sandboxing_find_sandbox_by_module
          (sandboxing_check_function_call wSandboxC3 1 ("fs_write".toList)).2
          1).map SandboxCtx.security_level = some wSbC3.security_level) :=
  ⟨by decide,
   claim_C3_amended_fs_write_permitted wSandboxC3 1 wSbC3 (by decide)
     (by
       intro l hl
       rw [show wSbC3.limits.find?
             (fun l => l.resource_type == RESOURCE_MODULE_CALLS)
             = some { resource_type := RESOURCE_MODULE_CALLS, limit := 1000
                      current_usage := 0, peak_usage := 0, enforce := true }
           from by decide] at hl
       cases hl
       right
       decide)⟩

theorem claim_C4_witness :
    (sandboxing_find_sandbox_by_module wSandC4 1 = some wSbC4 ∧
      wSbC4.violations = 5 ∧
      wSandC4.strict_enforcement = true ∧
      wSandC4.default_capabilities.getD SANDBOX_LEVEL_QUARANTINE 0
        = CAP_MODULE_QUERY) ∧
    (∃ sbq, sandboxing_find_sandbox_by_module
        (sandboxing_handle_violation wSandC4 1 VIOLATION_CAPABILITY []).1 1
          = some sbq ∧
      sbq.security_level = SANDBOX_LEVEL_QUARANTINE ∧
      sbq.capabilities = CAP_MODULE_QUERY ∧
      (∃ l, sbq.limits.find? (fun l => l.resource_type == RESOURCE_MEMORY)
              = some l ∧ l.limit ≤ 512 * 1024) ∧
      (sandboxing_handle_violation wSandC4 1 VIOLATION_CAPABILITY
          []).1.quarantined_modules = wSandC4.quarantined_modules + 1) :=
  ⟨⟨by decide, by decide, by decide, by decide⟩,
   claim_C4_quarantine_on_sixth wSandC4 1 wSbC4 [] (by decide) (by decide)
     (by decide) (Or.inl (by decide)) (by decide)⟩

/-! ## Claim C2 — loading a module binds no sandbox -/

theorem set_resource_limit_keeps_identity (s : SandboxSystem)
    (module_id rt lim : Nat) (sbx : SandboxCtx)
    (hfind : sandboxing_find_sandbox_by_module s module_id = some sbx) :
    ∃ sbx', sandboxing_find_sandbox_by_module
        (sandboxing_set_resource_limit s module_id rt lim).1 module_id
          = some sbx' ∧
      sbx'.module_id = sbx.module_id ∧
      sbx'.security_level = sbx.security_level := by
  rcases set_resource_limit_shape s module_id rt lim with heq |
    ⟨f, heq, hmatch, hlvl, -, hmid, -, -⟩
  · rw [heq]
    exact ⟨sbx, hfind, rfl, rfl⟩
  · rw [heq, sandboxing_find_updateSandbox s module_id f hmatch, hfind]
    exact ⟨f sbx, rfl, hmid sbx, hlvl sbx⟩

theorem find_sandbox_state_update (s : SandboxSystem) (l : List SandboxCtx)
    (n : Nat) (module_id : Nat) :
    sandboxing_find_sandbox_by_module
        { s with sandboxes := l, next_sandbox_id := n } module_id
      = if s.initialized = false then none else l.find? (sbMatch module_id) :=
  rfl

/-- `sandboxing_create_sandbox` on a module without a sandbox binds exactly
one fresh sandbox to it, at the requested security level. -/
theorem create_sandbox_binds (s : SandboxSystem) (module_id level : Nat)
    (hinit : s.initialized = true)
    (hnone : sandboxing_find_sandbox_by_module s module_id = none)
    (hcount : s.sandbox_count < MAX_SANDBOXES)
    (hlevel : level ≤ SANDBOX_LEVEL_QUARANTINE) :
    ∃ sbx, sandboxing_find_sandbox_by_module
        (sandboxing_create_sandbox s module_id level).1 module_id = some sbx ∧
      sbx.module_id = module_id ∧ sbx.security_level = level := by
  have hinitF : ¬(s.initialized = false) := by simp [hinit]
  have hnoneL : s.sandboxes.find? (sbMatch module_id) = none := by
    unfold sandboxing_find_sandbox_by_module at hnone
    rw [if_neg hinitF] at hnone
    exact hnone
  unfold sandboxing_create_sandbox
  rw [if_neg hinitF, if_neg (by omega), if_neg (by omega),
      if_neg (by simp [hnone])]
  simp only
  have hfind1 : sandboxing_find_sandbox_by_module
      { s with
          sandboxes := s.sandboxes ++
            [{ sandbox_id := s.next_sandbox_id, module_id := module_id
               security_level := level, active := true
               capabilities := s.default_capabilities.getD level 0
               denied_capabilities := 0, limits := [], function_calls := 0
               memory_allocations := 0, capability_checks := 0
               violations := 0, last_violation_id := 0 }]
          next_sandbox_id := s.next_sandbox_id + 1 } module_id
      = some { sandbox_id := s.next_sandbox_id, module_id := module_id
               security_level := level, active := true
               capabilities := s.default_capabilities.getD level 0
               denied_capabilities := 0, limits := [], function_calls := 0
               memory_allocations := 0, capability_checks := 0
               violations := 0, last_violation_id := 0 } := by
    rw [find_sandbox_state_update, if_neg hinitF]
    exact find_append_of_none _ _ _ hnoneL (by simp [sbMatch])
  set s1 : SandboxSystem := { s with
      sandboxes := s.sandboxes ++
        [{ sandbox_id := s.next_sandbox_id, module_id := module_id
           security_level := level, active := true
           capabilities := s.default_capabilities.getD level 0
           denied_capabilities := 0, limits := [], function_calls := 0
           memory_allocations := 0, capability_checks := 0
           violations := 0, last_violation_id := 0 }]
      next_sandbox_id := s.next_sandbox_id + 1 } with hs1
  by_cases hT : level = SANDBOX_LEVEL_TRUSTED
  · rw [if_pos hT]
    obtain ⟨x1, hf1, hm1, hl1⟩ := set_resource_limit_keeps_identity s1
      module_id RESOURCE_MEMORY (4 * 1024 * 1024) _ hfind1
    obtain ⟨x2, hf2, hm2, hl2⟩ := set_resource_limit_keeps_identity _
      module_id RESOURCE_CHILD_ACTORS 10 _ hf1
    obtain ⟨x3, hf3, hm3, hl3⟩ := set_resource_limit_keeps_identity _
      module_id RESOURCE_HEAP_ALLOCS 1000 _ hf2
    exact ⟨x3, hf3, by rw [hm3, hm2, hm1], by rw [hl3, hl2, hl1]⟩
  · rw [if_neg hT]
    by_cases hU : level = SANDBOX_LEVEL_USER
    · rw [if_pos hU]
      obtain ⟨x1, hf1, hm1, hl1⟩ := set_resource_limit_keeps_identity s1
        module_id RESOURCE_MEMORY (2 * 1024 * 1024) _ hfind1
      obtain ⟨x2, hf2, hm2, hl2⟩ := set_resource_limit_keeps_identity _
        module_id RESOURCE_CHILD_ACTORS 5 _ hf1
      obtain ⟨x3, hf3, hm3, hl3⟩ := set_resource_limit_keeps_identity _
        module_id RESOURCE_HEAP_ALLOCS 500 _ hf2
      obtain ⟨x4, hf4, hm4, hl4⟩ := set_resource_limit_keeps_identity _
        module_id RESOURCE_MODULE_CALLS 1000 _ hf3
      exact ⟨x4, hf4, by rw [hm4, hm3, hm2, hm1], by rw [hl4, hl3, hl2, hl1]⟩
    · rw [if_neg hU]
      by_cases hN : level = SANDBOX_LEVEL_UNTRUSTED
      · rw [if_pos hN]
        obtain ⟨x1, hf1, hm1, hl1⟩ := set_resource_limit_keeps_identity s1
          module_id RESOURCE_MEMORY (1 * 1024 * 1024) _ hfind1
        obtain ⟨x2, hf2, hm2, hl2⟩ := set_resource_limit_keeps_identity _
          module_id RESOURCE_CHILD_ACTORS 2 _ hf1
        obtain ⟨x3, hf3, hm3, hl3⟩ := set_resource_limit_keeps_identity _
          module_id RESOURCE_HEAP_ALLOCS 100 _ hf2
        obtain ⟨x4, hf4, hm4, hl4⟩ := set_resource_limit_keeps_identity _
          module_id RESOURCE_MODULE_CALLS 500 _ hf3
        obtain ⟨x5, hf5, hm5, hl5⟩ := set_resource_limit_keeps_identity _
          module_id RESOURCE_AI_QUERIES 10 _ hf4
        exact ⟨x5, hf5, by rw [hm5, hm4, hm3, hm2, hm1],
          by rw [hl5, hl4, hl3, hl2, hl1]⟩
      · rw [if_neg hN]
        by_cases hQ : level = SANDBOX_LEVEL_QUARANTINE
        · rw [if_pos hQ]
          obtain ⟨x1, hf1, hm1, hl1⟩ := set_resource_limit_keeps_identity s1
            module_id RESOURCE_MEMORY (512 * 1024) _ hfind1
          obtain ⟨x2, hf2, hm2, hl2⟩ := set_resource_limit_keeps_identity _
            module_id RESOURCE_CHILD_ACTORS 0 _ hf1
          obtain ⟨x3, hf3, hm3, hl3⟩ := set_resource_limit_keeps_identity _
            module_id RESOURCE_HEAP_ALLOCS 10 _ hf2
          obtain ⟨x4, hf4, hm4, hl4⟩ := set_resource_limit_keeps_identity _
            module_id RESOURCE_MODULE_CALLS 100 _ hf3
          exact ⟨x4, hf4, by rw [hm4, hm3, hm2, hm1],
            by rw [hl4, hl3, hl2, hl1]⟩
        · rw [if_neg hQ]
          exact ⟨_, hfind1, rfl, rfl⟩

/-- C2 (amended): `module_load` binds NO sandbox — the sandbox engine's
state is unchanged by a load, so a freshly loaded module has no sandbox
(unless one already existed for its id); a sandbox bound to the new module
exists precisely after a separate, explicit `sandboxing_create_sandbox`
call, which then creates exactly one at the requested level. -/
theorem claim_C2_amended_load_creates_no_sandbox (ks : KernelState)
    (module_data : Option ModuleImage) (size level : Nat)
    (hnone : sandboxing_find_sandbox_by_module ks.sandbox
               (kernel_module_load ks module_data size).2 = none)
    (hinit : ks.sandbox.initialized = true)
    (hcount : ks.sandbox.sandbox_count < MAX_SANDBOXES)
    (hlevel : level ≤ SANDBOX_LEVEL_QUARANTINE) :
    (kernel_module_load ks module_data size).1.sandbox = ks.sandbox ∧
    sandboxing_find_sandbox_by_module
        (kernel_module_load ks module_data size).1.sandbox
        (kernel_module_load ks module_data size).2 = none ∧
    ∃ sbx, sandboxing_find_sandbox_by_module
        (sandboxing_create_sandbox ks.sandbox
          (kernel_module_load ks module_data size).2 level).1
        (kernel_module_load ks module_data size).2 = some sbx ∧
      sbx.module_id = (kernel_module_load ks module_data size).2 ∧
      sbx.security_level = level :=
  ⟨rfl, hnone,
   create_sandbox_binds ks.sandbox (kernel_module_load ks module_data size).2
     level hinit hnone hcount hlevel⟩

theorem claim_C2_amended_witness :
    (sandboxing_find_sandbox_by_module wKernel0.sandbox
        (kernel_module_load wKernel0 (some wImage) 600).2 = none ∧
      wKernel0.sandbox.initialized = true ∧
      wKernel0.sandbox.sandbox_count < MAX_SANDBOXES ∧
      SANDBOX_LEVEL_USER ≤ SANDBOX_LEVEL_QUARANTINE) ∧
    ((kernel_module_load wKernel0 (some wImage) 600).1.sandbox
        = wKernel0.sandbox ∧
      sandboxing_find_sandbox_by_module
          (kernel_module_load wKernel0 (some wImage) 600).1.sandbox
          (kernel_module_load wKernel0 (some wImage) 600).2 = none ∧
      ∃ sbx, sandboxing_find_sandbox_by_module
          (sandboxing_create_sandbox wKernel0.sandbox
            (kernel_module_load wKernel0 (some wImage) 600).2
            SANDBOX_LEVEL_USER).1
          (kernel_module_load wKernel0 (some wImage) 600).2 = some sbx ∧
        sbx.module_id = (kernel_module_load wKernel0 (some wImage) 600).2 ∧
        sbx.security_level = SANDBOX_LEVEL_USER) :=
  ⟨⟨by decide, rfl, by decide, by decide⟩,
   claim_C2_amended_load_creates_no_sandbox wKernel0 (some wImage) 600
     SANDBOX_LEVEL_USER (by decide) rfl (by decide) (by decide)⟩

end CLKernel
